import Mathlib

/-!
Shallow embedding of `10-K/edgarSECFrontEnd.py`: the SEC concept fetchers and the
financial-metric derivation pipeline of `main`, together with proofs about the
claims of the specification.

Python numbers (ints and floats) are modelled as exact fractions (`Frac`), so
`round(x, 2)` becomes round-half-to-even on the exact value; binary floating
point representation artifacts are idealized away.  Python exceptions are
modelled by an `Except PyExn` layer; a `try/except` returning `[]` becomes
`runFetch`.  Display rows are lists of cells (string or number), with the
empty list playing the role the empty array plays in the source.
-/

namespace EdgarSEC

/-- Exact fraction: models a Python number.  `den` is kept positive by all
operations reachable from the pipeline; values are compared by
cross-multiplication (`Frac.beq`), which is what Python `==` does on numbers. -/
structure Frac where
  num : ℤ
  den : ℕ
  deriving DecidableEq

instance (n : ℕ) : OfNat Frac n := ⟨⟨(n : ℤ), 1⟩⟩

instance : Neg Frac := ⟨fun a => ⟨-a.num, a.den⟩⟩

instance : Add Frac := ⟨fun a b => ⟨a.num * (b.den : ℤ) + b.num * (a.den : ℤ), a.den * b.den⟩⟩

instance : Sub Frac := ⟨fun a b => ⟨a.num * (b.den : ℤ) - b.num * (a.den : ℤ), a.den * b.den⟩⟩

instance : Mul Frac := ⟨fun a b => ⟨a.num * b.num, a.den * b.den⟩⟩

/-- Exact division (the caller guards the divisor against zero first,
mirroring Python raising `ZeroDivisionError`). -/
def Frac.div (a b : Frac) : Frac :=
  if b.num < 0 then ⟨-(a.num * (b.den : ℤ)), a.den * b.num.natAbs⟩
  else ⟨a.num * (b.den : ℤ), a.den * b.num.natAbs⟩

instance : Div Frac := ⟨Frac.div⟩

/-- Value order on fractions (valid for positive denominators). -/
def Frac.Lt (a b : Frac) : Prop := a.num * (b.den : ℤ) < b.num * (a.den : ℤ)

/-- Value order on fractions (valid for positive denominators). -/
def Frac.Le (a b : Frac) : Prop := a.num * (b.den : ℤ) ≤ b.num * (a.den : ℤ)

instance : LT Frac := ⟨Frac.Lt⟩

instance : LE Frac := ⟨Frac.Le⟩

instance (a b : Frac) : Decidable (a < b) := Int.decLt _ _

instance (a b : Frac) : Decidable (a ≤ b) := Int.decLe _ _

/-- Value equality, i.e. Python `==` on two numbers. -/
def Frac.beq (a b : Frac) : Bool := a.num * (b.den : ℤ) == b.num * (a.den : ℤ)

/-- Value equality as a proposition. -/
def Frac.eqv (a b : Frac) : Prop := a.num * (b.den : ℤ) = b.num * (a.den : ℤ)

instance (a b : Frac) : Decidable (Frac.eqv a b) := Int.instDecidableEq _ _

/-- Python `abs`. -/
def Frac.fabs (a : Frac) : Frac := ⟨(a.num.natAbs : ℤ), a.den⟩

/-- Mathematical floor of the value (valid for positive denominators). -/
def Frac.floor (a : Frac) : ℤ := Int.fdiv a.num (a.den : ℤ)

/-- Round to the nearest integer, ties to even: the rounding mode of Python's
`round` applied to the exact value of its argument. -/
def Frac.rhe (q : Frac) : ℤ :=
  let f := q.floor
  let r : Frac := q - ⟨f, 1⟩
  if r < ⟨1, 2⟩ then f
  else if (⟨1, 2⟩ : Frac) < r then f + 1
  else if f % 2 = 0 then f else f + 1

/-- Python `round(x, 2)` on the exact value of `x`. -/
def round2 (q : Frac) : Frac := ⟨Frac.rhe (q * 100), 100⟩

/-- Python `int(x)`: truncation toward zero. -/
def pyInt (q : Frac) : ℤ := if (0 : Frac) ≤ q then q.floor else -(Frac.floor (-q))

/-- An integer as a Python number. -/
def intFrac (n : ℤ) : Frac := ⟨n, 1⟩

/-- Python exception kinds raised by the translated code. -/
inductive PyExn where
  | zeroDivisionError
  | typeError
  | keyError
  | indexError
  | requestError
  | jsonError
  deriving DecidableEq

/-- Python `a / b` on numbers: raises `ZeroDivisionError` on a zero divisor. -/
def pyDiv (a b : Frac) : Except PyExn Frac :=
  if b.num = 0 then .error .zeroDivisionError else .ok (a / b)

/-- A cell of a display row: the Python rows mix strings and numbers. -/
inductive Cell where
  | str (s : String)
  | num (q : Frac)
  deriving DecidableEq

/-- A display row: the source passes rows around as length-4 arrays
`[label, value, form, filed]`, with the empty array signalling absence. -/
abbrev Row := List Cell

/-- Python `==` on two cells: string equality, numeric equality, and `False`
across types. -/
def Cell.pyEq : Cell → Cell → Bool
  | .str a, .str b => a == b
  | .num a, .num b => Frac.beq a b
  | _, _ => false

/-- Python `row[-1] == other[-1]` as used by the alignment guards (the guards
only evaluate it after both length checks succeed, so both options are `some`
on every reachable path). -/
def lastEq (a b : Row) : Bool :=
  match a.getLast?, b.getLast? with
  | some x, some y => Cell.pyEq x y
  | _, _ => false

/-- Decimal digits of `n` grouped in threes with comma separators, as Python's
`,` format modifier renders an integer part. -/
def groupThrees : List Char → List Char
  | a :: b :: c :: d :: rest => a :: b :: c :: ',' :: groupThrees (d :: rest)
  | l => l

/-- Render `n` with thousands separators. -/
def commaSep (n : ℕ) : String := String.mk ((groupThrees (toString n).toList.reverse).reverse)

/-- Two decimal digits, zero padded. -/
def twoDigits (n : ℕ) : String := (if n < 10 then "0" else "") ++ toString n

/-- Python `format(x, ",.2f")` (an f-string `:,.2f` conversion) on the exact
value of `x`: round half to even at two decimals, thousands separators, always
two fractional digits. -/
def fmtComma2 (q : Frac) : String :=
  let n := Frac.rhe (q * 100)
  (if n < 0 then "-" else "") ++ commaSep (n.natAbs / 100) ++ "." ++ twoDigits (n.natAbs % 100)

/-- Python `str(x)` for a float `x` that is an exact multiple of 0.01 (every
use site first applies `round(_, 2)`): minimal decimal rendering with at least
one fractional digit, e.g. `40.0`, `40.5`, `40.25`. -/
def pyFloatStr (q : Frac) : String :=
  let n := Frac.rhe (q * 100)
  let m := n.natAbs
  (if n < 0 then "-" else "") ++ toString (m / 100) ++ "." ++
    (if m % 100 % 10 = 0 then toString (m % 100 / 10) else twoDigits (m % 100))

/-! ## The concept fetcher

Each `get…` function of the source issues one HTTP GET, takes
`response.json()["units"][<unit>]`, keeps the `val`/`form`/`filed` columns,
filters to `form == "10-K"`, takes the last row (`iloc[-1:]`) and prepends the
metric label with `np.insert`.  The whole body sits in `try/except Exception:
return []`.  We model the upstream world as a `FetchResp`. -/

/-- One observation of `units[<unit>]`, restricted to the three columns the
source keeps (`[["val", "form", "filed"]]`). -/
structure Obs where
  val : Frac
  form : String
  filed : String
  deriving DecidableEq

/-- What the network/JSON layer may hand the fetcher. -/
inductive FetchResp where
  /-- The request raised (network failure / timeout). -/
  | netError
  /-- Parsing `.json()` raised, or the document has no `units` key. -/
  | malformed
  /-- A well-formed document: the `units` dictionary. -/
  | units (m : List (String × List Obs))
  deriving DecidableEq

/-- Python dictionary lookup `units[<unit>]` (a missing key raises, handled at
the call site). -/
def lookupUnit (u : String) (m : List (String × List Obs)) : Option (List Obs) :=
  (m.find? (fun p => p.1 == u)).map Prod.snd

/-- The body of a fetcher up to (and excluding) its `try/except`:
`json()["units"][u]`, filter to `form == "10-K"`, take the last entry,
prepend the label.  When the unit's observation list is empty,
`pd.DataFrame.from_dict([])` has no columns at all, so the filter's
`df["form"]` raises `KeyError` (caught by the wrapper).  On a nonempty list
whose post-filter frame is empty, `iloc[-1:].to_numpy()` is a 0-row array and
`np.insert(row, 0, label)` flattens it, yielding the length-1 array
`[label]` — not the empty array. -/
def fetchBody (label : String) (u : String) (resp : FetchResp) : Except PyExn Row :=
  match resp with
  | .netError => .error .requestError
  | .malformed => .error .jsonError
  | .units m =>
      match lookupUnit u m with
      | none => .error .keyError
      | some [] => .error .keyError
      | some obs =>
          let tenK := obs.filter (fun o => o.form == "10-K")
          match tenK.getLast? with
          | none => .ok [Cell.str label]
          | some o => .ok [Cell.str label, Cell.num o.val, Cell.str o.form, Cell.str o.filed]

/-- The `try/except Exception: return []` wrapper shared by all fetchers. -/
def runFetch (body : Except PyExn Row) : Row :=
  match body with
  | .ok r => r
  | .error _ => []

/-- The update `row[1] = abs(row[1])` (in `getIncomeExpense`): raises `IndexError` on a
short row, `TypeError` on a string value. -/
def absTransform (r : Row) : Except PyExn Row :=
  match r with
  | a :: Cell.num v :: rest => .ok (a :: Cell.num v.fabs :: rest)
  | _ :: Cell.str _ :: _ => .error .typeError
  | _ => .error .indexError

/-- Python string repetition `s * n` (only reachable on a string value). -/
def strRep (s : String) (n : ℕ) : String := String.join (List.replicate n s)

/-- The update `row[1] = str(row[1]*100) + "%"` (in `getTaxRate`): raises `IndexError` on
a short row; on a number the rendering of `str(float)` is idealized as the
canonical decimal text of the exact value (no claim inspects this string). -/
def taxTransform (r : Row) : Except PyExn Row :=
  match r with
  | a :: Cell.num v :: rest =>
      .ok (a :: Cell.str (toString (v * 100).num ++ "/" ++ toString (v * 100).den ++ "%") :: rest)
  | a :: Cell.str s :: rest => .ok (a :: Cell.str (strRep s 100 ++ "%") :: rest)
  | _ => .error .indexError

def getRevenue (resp : FetchResp) : Row := runFetch (fetchBody "Revenue" "USD" resp)

def getCostRevenue (resp : FetchResp) : Row := runFetch (fetchBody "Cost Of Revenue" "USD" resp)

def getGrossProfit (resp : FetchResp) : Row := runFetch (fetchBody "Gross Profit" "USD" resp)

def getSGA (resp : FetchResp) : Row :=
  runFetch (fetchBody "Selling, General & Admin Costs" "USD" resp)

def getInterestExpense (resp : FetchResp) : Row :=
  runFetch (fetchBody "Interest Expense" "USD" resp)

def getIncomeExpense (resp : FetchResp) : Row :=
  runFetch (fetchBody "Other Nonoperating Income (Expense), net" "USD" resp >>= absTransform)

def getIncomeTax (resp : FetchResp) : Row :=
  runFetch (fetchBody "Income Taxes Paid, Net" "USD" resp)

def getTaxRate (resp : FetchResp) : Row :=
  runFetch (fetchBody "Effective Tax Rate" "pure" resp >>= taxTransform)

def getShares (resp : FetchResp) : Row :=
  runFetch (fetchBody "Common Stock Shares Outstanding" "shares" resp)

/-! ## Identifier resolution (`getCIK`) -/

/-- One record of the `company_tickers.json` table. -/
structure TickerRec where
  cik_str : String
  ticker : String
  deriving DecidableEq

/-- Python `str.zfill(n)`. -/
def zfill (n : ℕ) (s : String) : String :=
  if s.length < n then String.mk (List.replicate (n - s.length) '0') ++ s else s

/-- Python `str.upper()` (per-character uppercasing; tickers are ASCII). -/
def pyUpper (s : String) : String := String.mk (s.toList.map Char.toUpper)

/-- Resolution (`getCIK`): zero-pad every CIK to width 10, select the rows whose upper-cased
ticker equals the upper-cased query, return the first such CIK or `None`. -/
def getCIK (table : List TickerRec) (t : String) : Option String :=
  ((table.map (fun r => { cik_str := zfill 10 r.cik_str, ticker := r.ticker : TickerRec })).filter
    (fun r => pyUpper r.ticker == pyUpper t)).head?.map (fun r => r.cik_str)

/-! ## The derivation pipeline of `main`

Each derived metric of `main` is translated as a function of the rows it
consumes, returning the row it would append (or `[]`, matching the source's
own `[]` convention for `operating_profit_list`, `net_income_row` and
`income_share_list`), inside `Except PyExn` because the arithmetic can raise
`ZeroDivisionError`.  Indexing a row is only performed where the source does,
behind the same length guards. -/

/-- The value cell `row[1]` coerced to a number, as the arithmetic expressions use it
(`float(...)` conversions are the identity on our exact numbers; a string
would make the surrounding arithmetic raise `TypeError`). -/
def num1 (r : Row) : Except PyExn Frac :=
  match r with
  | _ :: Cell.num v :: _ => .ok v
  | _ :: Cell.str _ :: _ => .error .typeError
  | _ => .error .indexError

/-- The form cell `row[2]`. -/
def cell2 (r : Row) : Except PyExn Cell :=
  match r with
  | _ :: _ :: c :: _ => .ok c
  | _ => .error .indexError

/-- The filed-date cell `row[-1]`. -/
def lastCell (r : Row) : Except PyExn Cell :=
  match r.getLast? with
  | some c => .ok c
  | none => .error .indexError

/-- Lines 73-75: the Gross Margin row, produced iff Revenue and Cost of
Revenue are both length-4 and share the same filed date; value
`str(round((cost/revenue)*100, 2)) + "%"`. -/
def gross_margin_list (revenue_row cost_row : Row) : Except PyExn Row :=
  if revenue_row.length = 4 ∧ cost_row.length = 4 ∧ lastEq revenue_row cost_row then do
    let cv ← num1 cost_row
    let rv ← num1 revenue_row
    let q ← pyDiv cv rv
    let c2 ← cell2 revenue_row
    let cl ← lastCell revenue_row
    pure [Cell.str "Gross Margin", Cell.str (pyFloatStr (round2 (q * 100)) ++ "%"), c2, cl]
  else pure []

/-- Lines 90-92: the SG&A margin row. -/
def sga_margin_list (revenue_row sga_row : Row) : Except PyExn Row :=
  if revenue_row.length = 4 ∧ sga_row.length = 4 ∧ lastEq revenue_row sga_row then do
    let sv ← num1 sga_row
    let rv ← num1 revenue_row
    let q ← pyDiv sv rv
    let c2 ← cell2 revenue_row
    let cl ← lastCell revenue_row
    pure [Cell.str "SGA Percent of Revenue", Cell.str (pyFloatStr (round2 (q * 100)) ++ "%"), c2, cl]
  else pure []

/-- Lines 94-98: `operating_profit_list`, `['Operating Profit',
round(profit - sga, 2), profit[2], profit[-1]]` when Gross Profit and SG&A are
present and share a filed date, `[]` otherwise. -/
def operating_profit_list (profit_row sga_row : Row) : Except PyExn Row :=
  if profit_row.length = 4 ∧ sga_row.length = 4 ∧ lastEq profit_row sga_row then do
    let pv ← num1 profit_row
    let sv ← num1 sga_row
    let c2 ← cell2 profit_row
    let cl ← lastCell profit_row
    pure [Cell.str "Operating Profit", Cell.num (round2 (pv - sv)), c2, cl]
  else pure []

/-- Lines 102-104: the Operating Margin row. -/
def operating_profit_margin_list (revenue_row op_list : Row) : Except PyExn Row :=
  if revenue_row.length = 4 ∧ op_list.length = 4 ∧ lastEq revenue_row op_list then do
    let ov ← num1 op_list
    let rv ← num1 revenue_row
    let q ← pyDiv ov rv
    let c2 ← cell2 revenue_row
    let cl ← lastCell revenue_row
    pure [Cell.str "Operating Margin", Cell.str (pyFloatStr (round2 (q * 100)) ++ "%"), c2, cl]
  else pure []

/-- The four-way presence/alignment guard of lines 125-131. -/
def fourAligned (op_list interest_row income_row income_tax_row : Row) : Prop :=
  op_list.length = 4 ∧ interest_row.length = 4 ∧ income_row.length = 4 ∧
    income_tax_row.length = 4 ∧ lastEq op_list interest_row = true ∧
    lastEq interest_row income_row = true ∧ lastEq income_row income_tax_row = true

instance (a b c d : Row) : Decidable (fourAligned a b c d) := by
  unfold fourAligned; infer_instance

/-- Lines 123-140: `net_income_row`.  The value is
`int(round(op - interest - income - tax, 2))`; the row keeps Operating
Profit's form and filed date.  (The source stores the row via `np.array`,
which stringifies the mixed cells; downstream uses re-parse the value with
`float(...)` and compare the filed date, so we keep the cells structured.) -/
def net_income_row (op_list interest_row income_row income_tax_row : Row) :
    Except PyExn Row :=
  if fourAligned op_list interest_row income_row income_tax_row then do
    let a ← num1 op_list
    let b ← num1 interest_row
    let c ← num1 income_row
    let d ← num1 income_tax_row
    let c2 ← cell2 op_list
    let cl ← lastCell op_list
    pure [Cell.str "Net Income", Cell.num (intFrac (pyInt (round2 (a - b - c - d)))), c2, cl]
  else pure []

/-- Lines 146-149: `income_share_list` (EPS), produced iff the shares row and
the net-income row are present and share a filed date. -/
def income_share_list (shares_row ni_row : Row) : Except PyExn Row :=
  if shares_row.length = 4 ∧ ni_row.length = 4 ∧ lastEq shares_row ni_row then do
    let nv ← num1 ni_row
    let sv ← num1 shares_row
    let q ← pyDiv nv sv
    let c2 ← cell2 shares_row
    let cl ← lastCell shares_row
    pure [Cell.str "Net Income per share - Diluted", Cell.num (round2 q), c2, cl]
  else pure []

/-- A fetched or derived row is appended to a table iff it has length 4. -/
def rowIf4 (r : Row) : List Row := if r.length = 4 then [r] else []

/-- The upstream responses for the nine concept fetches of one submission. -/
structure Responses where
  revenue : FetchResp
  cost : FetchResp
  profit : FetchResp
  sga : FetchResp
  interest : FetchResp
  income : FetchResp
  incomeTax : FetchResp
  taxRate : FetchResp
  shares : FetchResp
  deriving DecidableEq

/-- Lines 60-156: the primary metrics table, rows in source append order. -/
def display_table (R : Responses) : Except PyExn (List Row) := do
  let revenue_row := getRevenue R.revenue
  let cost_row := getCostRevenue R.cost
  let gm ← gross_margin_list revenue_row cost_row
  let profit_row := getGrossProfit R.profit
  let sga_row := getSGA R.sga
  let sgam ← sga_margin_list revenue_row sga_row
  let op ← operating_profit_list profit_row sga_row
  let opm ← operating_profit_margin_list revenue_row op
  let interest_row := getInterestExpense R.interest
  let income_row := getIncomeExpense R.income
  let income_tax_row := getIncomeTax R.incomeTax
  let tax_row := getTaxRate R.taxRate
  let ni ← net_income_row op interest_row income_row income_tax_row
  let shares_row := getShares R.shares
  let eps ← income_share_list shares_row ni
  pure (rowIf4 revenue_row ++ rowIf4 cost_row ++ rowIf4 gm ++ rowIf4 profit_row ++
    rowIf4 sga_row ++ rowIf4 sgam ++ rowIf4 op ++ rowIf4 opm ++ rowIf4 interest_row ++
    rowIf4 income_row ++ rowIf4 income_tax_row ++ rowIf4 tax_row ++ rowIf4 ni ++
    rowIf4 shares_row ++ rowIf4 eps)

/-- Line 167: `oci_spend = round(spend*0.53, 2) - round(spend*0.53*0.25, 2)`. -/
def oci_spend (spend : Frac) : Frac :=
  round2 (spend * ⟨53, 100⟩) - round2 (spend * ⟨53, 100⟩ * ⟨25, 100⟩)

/-- Line 170: `tech_saved = abs(oci_spend - spend)`. -/
def tech_saved (spend : Frac) : Frac := Frac.fabs (oci_spend spend - spend)

/-- The unconditional "OCI Spend (Including Support Rewards)" row (line 168). -/
def ociSpendRow (spend : Frac) : Row :=
  [Cell.str "OCI Spend (Including Support Rewards)", Cell.str ("$" ++ fmtComma2 (oci_spend spend))]

/-- The unconditional "Amount Saved" row (line 171, label typo as in source). -/
def amountSavedRow (spend : Frac) : Row :=
  [Cell.str "Amount Saved (Between OCI & Origional Cloud Spend)",
    Cell.str ("$" ++ fmtComma2 (tech_saved spend))]

/-- Lines 163-165: the "% of SGA for Original Tech Spend" row, gated only on
SG&A presence; `round(float(spend / sga)*100, 2)` rendered `:,.2f` + `%`. -/
def pct_sga_rows (spend : Frac) (sga_row : Row) : Except PyExn (List Row) :=
  if sga_row.length = 4 then do
    let sv ← num1 sga_row
    let q ← pyDiv spend sv
    pure [[Cell.str "% of SGA for Original Tech Spend",
      Cell.str (fmtComma2 (round2 (q * 100)) ++ "%")]]
  else pure []

/-- Lines 173-175: `oci_sga = sga - tech_saved`, gated on SG&A presence. -/
def oci_sga_rows (spend : Frac) (sga_row : Row) : Except PyExn (List Row) :=
  if sga_row.length = 4 then do
    let sv ← num1 sga_row
    pure [[Cell.str "SGA when Using OCI", Cell.str ("$" ++ fmtComma2 (sv - tech_saved spend))]]
  else pure []

/-- Lines 177-182: the re-derived SG&A margin rows, gated on Revenue/SG&A
alignment (`oci_sga` is in scope because SG&A is present). -/
def sga_margin_oci_rows (spend : Frac) (revenue_row sga_row : Row) : Except PyExn (List Row) :=
  if revenue_row.length = 4 ∧ sga_row.length = 4 ∧ lastEq revenue_row sga_row then do
    let sv ← num1 sga_row
    let rv ← num1 revenue_row
    let q1 ← pyDiv (sv - tech_saved spend) rv
    let q2 ← pyDiv sv rv
    pure [[Cell.str "SGA percent of Revenue (with OCI)",
        Cell.str (fmtComma2 (round2 (q1 * 100)) ++ "%")],
      [Cell.str "Change In SGA percent of Revenue",
        Cell.str (fmtComma2 (round2 (q2 * 100) - round2 (q1 * 100)) ++ "%")]]
  else pure []

/-- Lines 184-186: `oci_op_profit = op - tech_saved` is computed, but the row
displays `oci_sga` (the source's line 186 formats `oci_sga`, not
`oci_op_profit`).  `oci_sga` is in scope because a present
`operating_profit_list` implies SG&A was present. -/
def op_profit_oci_rows (spend : Frac) (sga_row op_list : Row) : Except PyExn (List Row) :=
  if op_list.length = 4 then do
    let sv ← num1 sga_row
    pure [[Cell.str "Operating Profit", Cell.str ("$" ++ fmtComma2 (sv - tech_saved spend))]]
  else pure []

/-- Lines 188-193: the re-derived operating-margin rows, gated on
Revenue/Operating-Profit alignment; they use `oci_op_profit = op - tech_saved`. -/
def op_margin_oci_rows (spend : Frac) (revenue_row op_list : Row) : Except PyExn (List Row) :=
  if revenue_row.length = 4 ∧ op_list.length = 4 ∧ lastEq revenue_row op_list then do
    let ov ← num1 op_list
    let rv ← num1 revenue_row
    let q1 ← pyDiv (ov - tech_saved spend) rv
    let q2 ← pyDiv ov rv
    pure [[Cell.str "Operating Profit Margin (with OCI)",
        Cell.str (fmtComma2 (round2 (q1 * 100)) ++ "%")],
      [Cell.str "Change In Operating Margin",
        Cell.str (fmtComma2 (round2 (q2 * 100) - round2 (q1 * 100)) ++ "%")]]
  else pure []

/-- Lines 195-197: `oci_net_income = int(net_income_val) + tech_saved`, gated
on the net-income row being present. -/
def net_income_oci_rows (spend : Frac) (ni_row : Row) : Except PyExn (List Row) :=
  if ni_row.length = 4 then do
    let nv ← num1 ni_row
    pure [[Cell.str "Net Income (with OCI)",
      Cell.str ("$" ++ fmtComma2 (nv + tech_saved spend))]]
  else pure []

/-- Lines 199-204: the re-derived EPS rows, gated on the EPS row being
present (which implies the net-income and shares rows were present). -/
def eps_oci_rows (spend : Frac) (ni_row shares_row eps_row : Row) : Except PyExn (List Row) :=
  if eps_row.length = 4 then do
    let nv ← num1 ni_row
    let sv ← num1 shares_row
    let q1 ← pyDiv (nv + tech_saved spend) sv
    let q2 ← pyDiv nv sv
    pure [[Cell.str "Net Income per share - Diluted (with OCI)",
        Cell.str ("$" ++ fmtComma2 (round2 q1))],
      [Cell.str "Net Income per share - Diluted (change)",
        Cell.str ("$" ++ fmtComma2 (Frac.fabs (round2 q2 - round2 q1)))]]
  else pure []

/-- Lines 160-206: the competitor-spend comparison table.  The intermediate
rows (`operating_profit_list`, `net_income_row`, `income_share_list`) are the
very values `main` computed for the first table; recomputing them here yields
the same results and the same first raised exception. -/
def spend_table (R : Responses) (spend : Frac) : Except PyExn (List Row) := do
  let revenue_row := getRevenue R.revenue
  let sga_row := getSGA R.sga
  let profit_row := getGrossProfit R.profit
  let op ← operating_profit_list profit_row sga_row
  let ni ← net_income_row op (getInterestExpense R.interest) (getIncomeExpense R.income)
    (getIncomeTax R.incomeTax)
  let shares_row := getShares R.shares
  let eps ← income_share_list shares_row ni
  let part1 ← pct_sga_rows spend sga_row
  let part2 ← oci_sga_rows spend sga_row
  let part3 ← sga_margin_oci_rows spend revenue_row sga_row
  let part4 ← op_profit_oci_rows spend sga_row op
  let part5 ← op_margin_oci_rows spend revenue_row op
  let part6 ← net_income_oci_rows spend ni
  let part7 ← eps_oci_rows spend ni shares_row eps
  pure (part1 ++ [ociSpendRow spend, amountSavedRow spend] ++ part2 ++ part3 ++ part4 ++
    part5 ++ part6 ++ part7)

/-- The whole per-submission pipeline after a successful CIK resolution: both
tables, or the first exception raised. -/
def runMain (R : Responses) (spend : Frac) : Except PyExn (List Row × List Row) := do
  let dt ← display_table R
  let st ← spend_table R spend
  pure (dt, st)

/-- The nine concept fetches of one submission, keyed by the XBRL concept
segment of the request URL: how `main` consumes a fetch oracle `F`. -/
def responsesOf (F : String → FetchResp) : Responses :=
  { revenue := F "Revenues", cost := F "CostOfRevenue", profit := F "GrossProfit",
    sga := F "SellingGeneralAndAdministrativeExpense", interest := F "InterestExpense",
    income := F "OtherNonoperatingIncomeExpense", incomeTax := F "IncomeTaxesPaidNet",
    taxRate := F "EffectiveIncomeTaxRateContinuingOperations",
    shares := F "CommonStockSharesOutstanding" }

/-- What the user sees for one submitted (non-empty) ticker. -/
inductive Outcome where
  /-- The warning branch: `st.warning(msg)` with CIK box "Not found". -/
  | notFound (msg : String)
  /-- The results branch: CIK echoed, then the two tables (or a crash). -/
  | report (cik : String) (tables : Except PyExn (List Row × List Row))

/-- Lines 44-209 for a submitted non-empty ticker: resolve the CIK; on `None`
(or an empty string, which is also falsy in `if cik:`) warn "not found" and
fetch nothing, otherwise run the nine fetches and the pipeline. -/
def mainDispatch (table : List TickerRec) (t : String) (F : String → FetchResp)
    (spend : Frac) : Outcome :=
  match getCIK table t with
  | none => .notFound "Ticker not found. Please verify the symbol."
  | some cik =>
      if cik = "" then .notFound "Ticker not found. Please verify the symbol."
      else .report cik (runMain (responsesOf F) spend)

/-- A row of `rows` carries the string `l` in its label (first) cell. -/
def rowLabelIs (l : String) (r : Row) : Bool :=
  match r.head? with
  | some (Cell.str s) => s == l
  | _ => false

/-- Some row of `rows` is labelled `l`. -/
def hasLabel (l : String) (rows : List Row) : Bool := rows.any (rowLabelIs l)

/-- Every possible result of a plain fetcher: absent (`[]`), the label-only
length-1 row of an empty post-filter frame, or a full labelled row. -/
def plainShape (l : String) (r : Row) : Prop :=
  r = [] ∨ r = [Cell.str l] ∨
    ∃ v f d, r = [Cell.str l, Cell.num v, Cell.str f, Cell.str d]

/-- Results of `operating_profit_list` / `net_income_row` /
`income_share_list`: absent, or a labelled row with a numeric value. -/
def derivedNumShape (l : String) (r : Row) : Prop :=
  r = [] ∨ ∃ v c d, r = [Cell.str l, Cell.num v, c, d]

/-! ## Concrete submissions used as witnesses and counterexamples -/

/-- A response with a single 10-K observation of value `v` in unit `u`,
filed 2024-01-01. -/
def oneObs (u : String) (v : Frac) : FetchResp :=
  .units [(u, [⟨v, "10-K", "2024-01-01"⟩])]

/-- Every one of the nine fetches fails (e.g. network down). -/
def allAbsent : Responses :=
  { revenue := .netError, cost := .netError, profit := .netError, sga := .netError,
    interest := .netError, income := .netError, incomeTax := .netError,
    taxRate := .netError, shares := .netError }

/-- A fully aligned submission: Revenue 1000, Cost 400, Gross Profit 600,
SG&A 200, Interest 20, Other Income/Expense −30, Taxes 50, tax rate 0.21,
100 shares, all filed 2024-01-01. -/
def sampleFull : Responses :=
  { revenue := oneObs "USD" 1000, cost := oneObs "USD" 400, profit := oneObs "USD" 600,
    sga := oneObs "USD" 200, interest := oneObs "USD" 20,
    income := .units [("USD", [⟨-30, "10-K", "2024-01-01"⟩])],
    incomeTax := oneObs "USD" 50,
    taxRate := .units [("pure", [⟨⟨21, 100⟩, "10-K", "2024-01-01"⟩])],
    shares := .units [("shares", [⟨100, "10-K", "2024-01-01"⟩])] }

/-- Revenue fetched with value 0 alongside an aligned Cost row. -/
def RzeroRev : Responses :=
  { revenue := oneObs "USD" 0, cost := oneObs "USD" 400, profit := .netError,
    sga := .netError, interest := .netError, income := .netError, incomeTax := .netError,
    taxRate := .netError, shares := .netError }

/-- Gross Profit 500 and SG&A 200 aligned, everything else absent. -/
def Rc4 : Responses :=
  { revenue := .netError, cost := .netError, profit := oneObs "USD" 500,
    sga := oneObs "USD" 200, interest := .netError, income := .netError,
    incomeTax := .netError, taxRate := .netError, shares := .netError }

/-- As `Rc4` but with Revenue 1000 aligned as well. -/
def Rc4b : Responses :=
  { revenue := oneObs "USD" 1000, cost := .netError, profit := oneObs "USD" 500,
    sga := oneObs "USD" 200, interest := .netError, income := .netError,
    incomeTax := .netError, taxRate := .netError, shares := .netError }

/-- A response whose only observation is not 10-K tagged. -/
def respNoTenK : FetchResp := .units [("USD", [⟨5, "10-Q", "2024-01-01"⟩])]

/-- Concrete rows used to witness the derivation-step claims. -/
def profitW : Row := [Cell.str "Gross Profit", Cell.num 600, Cell.str "10-K",
  Cell.str "2024-01-01"]

def sgaW : Row := [Cell.str "Selling, General & Admin Costs", Cell.num 200,
  Cell.str "10-K", Cell.str "2024-01-01"]

def revW : Row := [Cell.str "Revenue", Cell.num 1000, Cell.str "10-K",
  Cell.str "2024-01-01"]

def opW : Row := [Cell.str "Operating Profit", Cell.num 300, Cell.str "10-K",
  Cell.str "2024-01-01"]

def irW : Row := [Cell.str "Interest Expense", Cell.num 20, Cell.str "10-K",
  Cell.str "2024-01-01"]

def incW : Row := [Cell.str "Other Nonoperating Income (Expense), net", Cell.num 30,
  Cell.str "10-K", Cell.str "2024-01-01"]

def taxW : Row := [Cell.str "Income Taxes Paid, Net", Cell.num 50, Cell.str "10-K",
  Cell.str "2024-01-01"]

/-! ## Shape lemmas for the fetchers -/

/-- Bind of `Except` on a success, for rewriting translated `do` blocks. -/
@[simp] theorem ok_bind {α β : Type} (a : α) (f : α → Except PyExn β) :
    (Except.ok a >>= f) = f a := rfl

/-- Bind of `Except` on a raised exception. -/
@[simp] theorem error_bind {α β : Type} (e : PyExn) (f : α → Except PyExn β) :
    ((Except.error e : Except PyExn α) >>= f) = Except.error e := rfl

theorem runFetch_fetchBody_shape (l u : String) (resp : FetchResp) :
    plainShape l (runFetch (fetchBody l u resp)) := by
  unfold plainShape
  cases resp with
  | netError => exact Or.inl rfl
  | malformed => exact Or.inl rfl
  | units m =>
      cases h : lookupUnit u m with
      | none => simp [fetchBody, h, runFetch]
      | some obs =>
          cases obs with
          | nil => simp [fetchBody, h, runFetch]
          | cons o0 rest =>
              cases h2 : ((o0 :: rest).filter (fun o => o.form == "10-K")).getLast? with
              | none => simp [fetchBody, h, h2, runFetch]
              | some o =>
                  refine Or.inr (Or.inr ⟨o.val, o.form, o.filed, ?_⟩)
                  simp [fetchBody, h, h2, runFetch]

theorem getRevenue_shape (resp : FetchResp) : plainShape "Revenue" (getRevenue resp) :=
  runFetch_fetchBody_shape _ _ resp

theorem getCostRevenue_shape (resp : FetchResp) :
    plainShape "Cost Of Revenue" (getCostRevenue resp) :=
  runFetch_fetchBody_shape _ _ resp

theorem getGrossProfit_shape (resp : FetchResp) :
    plainShape "Gross Profit" (getGrossProfit resp) :=
  runFetch_fetchBody_shape _ _ resp

theorem getSGA_shape (resp : FetchResp) :
    plainShape "Selling, General & Admin Costs" (getSGA resp) :=
  runFetch_fetchBody_shape _ _ resp

theorem getInterestExpense_shape (resp : FetchResp) :
    plainShape "Interest Expense" (getInterestExpense resp) :=
  runFetch_fetchBody_shape _ _ resp

theorem getIncomeTax_shape (resp : FetchResp) :
    plainShape "Income Taxes Paid, Net" (getIncomeTax resp) :=
  runFetch_fetchBody_shape _ _ resp

theorem getShares_shape (resp : FetchResp) :
    plainShape "Common Stock Shares Outstanding" (getShares resp) :=
  runFetch_fetchBody_shape _ _ resp

/-- The fetcher `getIncomeExpense` yields `[]` or a full row whose value went through
`abs` (the label-only case of an empty post-filter frame turns into `[]`
because `row[1] = abs(row[1])` raises `IndexError`, which the wrapper eats). -/
theorem getIncomeExpense_shape (resp : FetchResp) :
    getIncomeExpense resp = [] ∨ ∃ v f d, getIncomeExpense resp =
      [Cell.str "Other Nonoperating Income (Expense), net", Cell.num (Frac.fabs v),
        Cell.str f, Cell.str d] := by
  cases resp with
  | netError => exact Or.inl rfl
  | malformed => exact Or.inl rfl
  | units m =>
      cases h : lookupUnit "USD" m with
      | none => simp [getIncomeExpense, fetchBody, h, runFetch]
      | some obs =>
          cases obs with
          | nil => simp [getIncomeExpense, fetchBody, h, runFetch]
          | cons o0 rest =>
              cases h2 : ((o0 :: rest).filter (fun o => o.form == "10-K")).getLast? with
              | none => simp [getIncomeExpense, fetchBody, h, h2, runFetch, absTransform]
              | some o =>
                  refine Or.inr ⟨o.val, o.form, o.filed, ?_⟩
                  simp [getIncomeExpense, fetchBody, h, h2, runFetch, absTransform]

/-- The fetcher `getTaxRate` yields `[]` or a full row whose value is a percentage
string (again the label-only case collapses to `[]` via `IndexError`). -/
theorem getTaxRate_shape (resp : FetchResp) :
    getTaxRate resp = [] ∨ ∃ s f d, getTaxRate resp =
      [Cell.str "Effective Tax Rate", Cell.str s, Cell.str f, Cell.str d] := by
  cases resp with
  | netError => exact Or.inl rfl
  | malformed => exact Or.inl rfl
  | units m =>
      cases h : lookupUnit "pure" m with
      | none => simp [getTaxRate, fetchBody, h, runFetch]
      | some obs =>
          cases obs with
          | nil => simp [getTaxRate, fetchBody, h, runFetch]
          | cons o0 rest =>
              cases h2 : ((o0 :: rest).filter (fun o => o.form == "10-K")).getLast? with
              | none => simp [getTaxRate, fetchBody, h, h2, runFetch, taxTransform]
              | some o =>
                  refine Or.inr ⟨toString (o.val * 100).num ++ "/" ++
                    toString (o.val * 100).den ++ "%", o.form, o.filed, ?_⟩
                  simp [getTaxRate, fetchBody, h, h2, runFetch, taxTransform]

/-! ## Run lemmas: each derivation step succeeds and has a known shape -/

/-- Writing `pure` in the translated `do` blocks is `Except.ok`. -/
@[simp] theorem pure_eq_ok {α : Type} (a : α) : (pure a : Except PyExn α) = Except.ok a := rfl

/-- Inversion of a successful `Except` bind. -/
theorem bind_ok_inv {α β : Type} {m : Except PyExn α} {f : α → Except PyExn β} {b : β}
    (h : (m >>= f) = .ok b) : ∃ a, m = .ok a ∧ f a = .ok b := by
  cases m with
  | error e => simp at h
  | ok a => exact ⟨a, rfl, h⟩

theorem income_share_list_of_absent (sh : Row) : income_share_list sh [] = .ok [] := by
  simp [income_share_list]

theorem gross_margin_list_run (lr lc : String) (rev cost : Row)
    (hrev : plainShape lr rev) (hcost : plainShape lc cost)
    (h0 : ∀ v, num1 rev = .ok v → v.num ≠ 0) :
    ∃ r, gross_margin_list rev cost = .ok r ∧
      (r = [] ∨ ∃ s c d, r = [Cell.str "Gross Margin", Cell.str s, c, d]) ∧
      (r.length = 4 ↔ (rev.length = 4 ∧ cost.length = 4 ∧ lastEq rev cost = true)) := by
  by_cases hg : rev.length = 4 ∧ cost.length = 4 ∧ lastEq rev cost = true
  · obtain ⟨h1, h2, h3⟩ := hg
    rcases hrev with rfl | rfl | ⟨v, f, d, rfl⟩ <;> simp at h1
    rcases hcost with rfl | rfl | ⟨v2, f2, d2, rfl⟩ <;> simp at h2
    have hv : v.num ≠ 0 := h0 v rfl
    refine ⟨[Cell.str "Gross Margin", Cell.str (pyFloatStr (round2 (v2 / v * 100)) ++ "%"),
      Cell.str f, Cell.str d], ?_, Or.inr ⟨_, _, _, rfl⟩, by simp [h3]⟩
    simp [gross_margin_list, h3, num1, cell2, lastCell, pyDiv, hv, List.getLast?]
  · refine ⟨[], ?_, Or.inl rfl, by simp [hg]⟩
    simp [gross_margin_list, hg]

theorem sga_margin_list_run (lr ls : String) (rev sga : Row)
    (hrev : plainShape lr rev) (hsga : plainShape ls sga)
    (h0 : ∀ v, num1 rev = .ok v → v.num ≠ 0) :
    ∃ r, sga_margin_list rev sga = .ok r ∧
      (r = [] ∨ ∃ s c d, r = [Cell.str "SGA Percent of Revenue", Cell.str s, c, d]) ∧
      (r.length = 4 ↔ (rev.length = 4 ∧ sga.length = 4 ∧ lastEq rev sga = true)) := by
  by_cases hg : rev.length = 4 ∧ sga.length = 4 ∧ lastEq rev sga = true
  · obtain ⟨h1, h2, h3⟩ := hg
    rcases hrev with rfl | rfl | ⟨v, f, d, rfl⟩ <;> simp at h1
    rcases hsga with rfl | rfl | ⟨v2, f2, d2, rfl⟩ <;> simp at h2
    have hv : v.num ≠ 0 := h0 v rfl
    refine ⟨[Cell.str "SGA Percent of Revenue",
      Cell.str (pyFloatStr (round2 (v2 / v * 100)) ++ "%"),
      Cell.str f, Cell.str d], ?_, Or.inr ⟨_, _, _, rfl⟩, by simp [h3]⟩
    simp [sga_margin_list, h3, num1, cell2, lastCell, pyDiv, hv, List.getLast?]
  · refine ⟨[], ?_, Or.inl rfl, by simp [hg]⟩
    simp [sga_margin_list, hg]

theorem operating_profit_list_run (lp ls : String) (profit sga : Row)
    (hp : plainShape lp profit) (hs : plainShape ls sga) :
    ∃ r, operating_profit_list profit sga = .ok r ∧
      derivedNumShape "Operating Profit" r ∧
      (r.length = 4 ↔ (profit.length = 4 ∧ sga.length = 4 ∧ lastEq profit sga = true)) ∧
      (∀ c, r.getLast? = some c → profit.getLast? = some c) := by
  by_cases hg : profit.length = 4 ∧ sga.length = 4 ∧ lastEq profit sga = true
  · obtain ⟨h1, h2, h3⟩ := hg
    rcases hp with rfl | rfl | ⟨v, f, d, rfl⟩ <;> simp at h1
    rcases hs with rfl | rfl | ⟨v2, f2, d2, rfl⟩ <;> simp at h2
    refine ⟨[Cell.str "Operating Profit", Cell.num (round2 (v - v2)), Cell.str f, Cell.str d],
      ?_, Or.inr ⟨_, _, _, rfl⟩, by simp [h3], ?_⟩
    · simp [operating_profit_list, h3, num1, cell2, lastCell, List.getLast?]
    · intro c hc
      simp [List.getLast?] at hc
      simp [List.getLast?, hc]
  · refine ⟨[], ?_, Or.inl rfl, by simp [hg], by intro c hc; simp [List.getLast?] at hc⟩
    simp [operating_profit_list, hg]

theorem operating_profit_margin_list_run (lr : String) (rev op : Row)
    (hrev : plainShape lr rev) (hop : derivedNumShape "Operating Profit" op)
    (h0 : ∀ v, num1 rev = .ok v → v.num ≠ 0) :
    ∃ r, operating_profit_margin_list rev op = .ok r ∧
      (r = [] ∨ ∃ s c d, r = [Cell.str "Operating Margin", Cell.str s, c, d]) ∧
      (r.length = 4 ↔ (rev.length = 4 ∧ op.length = 4 ∧ lastEq rev op = true)) := by
  by_cases hg : rev.length = 4 ∧ op.length = 4 ∧ lastEq rev op = true
  · obtain ⟨h1, h2, h3⟩ := hg
    rcases hrev with rfl | rfl | ⟨v, f, d, rfl⟩ <;> simp at h1
    rcases hop with rfl | ⟨v2, c2c, d2, rfl⟩
    · simp at h2
    have hv : v.num ≠ 0 := h0 v rfl
    refine ⟨[Cell.str "Operating Margin",
      Cell.str (pyFloatStr (round2 (v2 / v * 100)) ++ "%"),
      Cell.str f, Cell.str d], ?_, Or.inr ⟨_, _, _, rfl⟩, by simp [h3]⟩
    simp [operating_profit_margin_list, h3, num1, cell2, lastCell, pyDiv, hv, List.getLast?]
  · refine ⟨[], ?_, Or.inl rfl, by simp [hg]⟩
    simp [operating_profit_margin_list, hg]

theorem net_income_row_run (li lt : String) (op ir inc tax : Row)
    (hop : derivedNumShape "Operating Profit" op)
    (hir : plainShape li ir)
    (hinc : inc = [] ∨ ∃ v f d, inc =
      [Cell.str "Other Nonoperating Income (Expense), net", Cell.num v, Cell.str f, Cell.str d])
    (htax : plainShape lt tax) :
    ∃ r, net_income_row op ir inc tax = .ok r ∧ derivedNumShape "Net Income" r ∧
      (r.length = 4 ↔ fourAligned op ir inc tax) ∧
      (∀ c, r.getLast? = some c → op.getLast? = some c) := by
  by_cases hg : fourAligned op ir inc tax
  · have hcopy := hg
    obtain ⟨h1, h2, h3, h4, -, -, -⟩ := hcopy
    rcases hop with rfl | ⟨v1, c1, d1, rfl⟩
    · simp at h1
    rcases hir with rfl | rfl | ⟨v2, f2, d2, rfl⟩ <;> simp at h2
    rcases hinc with rfl | ⟨v3, f3, d3, rfl⟩
    · simp at h3
    rcases htax with rfl | rfl | ⟨v4, f4, d4, rfl⟩ <;> simp at h4
    refine ⟨[Cell.str "Net Income",
      Cell.num (intFrac (pyInt (round2 (v1 - v2 - v3 - v4)))), c1, d1],
      ?_, Or.inr ⟨_, _, _, rfl⟩, by simp [hg], ?_⟩
    · simp [net_income_row, hg, num1, cell2, lastCell, List.getLast?]
    · intro c hc
      simp [List.getLast?] at hc
      simp [List.getLast?, hc]
  · refine ⟨[], ?_, Or.inl rfl, by simp [hg],
      by intro c hc; simp [List.getLast?] at hc⟩
    simp [net_income_row, hg]

theorem income_share_list_run (ls : String) (shares ni : Row)
    (hsh : plainShape ls shares) (hni : derivedNumShape "Net Income" ni)
    (h0 : ∀ v, num1 shares = .ok v → v.num ≠ 0) :
    ∃ r, income_share_list shares ni = .ok r ∧
      derivedNumShape "Net Income per share - Diluted" r ∧
      (r.length = 4 ↔ (shares.length = 4 ∧ ni.length = 4 ∧ lastEq shares ni = true)) := by
  by_cases hg : shares.length = 4 ∧ ni.length = 4 ∧ lastEq shares ni = true
  · obtain ⟨h1, h2, h3⟩ := hg
    rcases hsh with rfl | rfl | ⟨v, f, d, rfl⟩ <;> simp at h1
    rcases hni with rfl | ⟨v2, c2c, d2, rfl⟩
    · simp at h2
    have hv : v.num ≠ 0 := h0 v rfl
    refine ⟨[Cell.str "Net Income per share - Diluted", Cell.num (round2 (v2 / v)),
      Cell.str f, Cell.str d], ?_, Or.inr ⟨_, _, _, rfl⟩, by simp [h3]⟩
    simp [income_share_list, h3, num1, cell2, lastCell, pyDiv, hv, List.getLast?]
  · refine ⟨[], ?_, Or.inl rfl, by simp [hg]⟩
    simp [income_share_list, hg]

/-! ## Run lemmas for the competitor-spend table parts -/

theorem pct_sga_rows_run (ls : String) (spend : Frac) (sga : Row)
    (hsga : plainShape ls sga) (h0 : ∀ v, num1 sga = .ok v → v.num ≠ 0) :
    ∃ l, pct_sga_rows spend sga = .ok l := by
  rcases hsga with rfl | rfl | ⟨v, f, d, rfl⟩
  · exact ⟨[], by simp [pct_sga_rows]⟩
  · exact ⟨[], by simp [pct_sga_rows]⟩
  · have hv : v.num ≠ 0 := h0 v rfl
    refine ⟨[[Cell.str "% of SGA for Original Tech Spend",
      Cell.str (fmtComma2 (round2 (spend / v * 100)) ++ "%")]], ?_⟩
    simp [pct_sga_rows, num1, pyDiv, hv]

theorem oci_sga_rows_run (ls : String) (spend : Frac) (sga : Row)
    (hsga : plainShape ls sga) :
    ∃ l, oci_sga_rows spend sga = .ok l := by
  rcases hsga with rfl | rfl | ⟨v, f, d, rfl⟩
  · exact ⟨[], by simp [oci_sga_rows]⟩
  · exact ⟨[], by simp [oci_sga_rows]⟩
  · refine ⟨[[Cell.str "SGA when Using OCI",
      Cell.str ("$" ++ fmtComma2 (v - tech_saved spend))]], ?_⟩
    simp [oci_sga_rows, num1]

theorem sga_margin_oci_rows_run (lr ls : String) (spend : Frac) (rev sga : Row)
    (hrev : plainShape lr rev) (hsga : plainShape ls sga)
    (h0 : ∀ v, num1 rev = .ok v → v.num ≠ 0) :
    ∃ l, sga_margin_oci_rows spend rev sga = .ok l := by
  by_cases hg : rev.length = 4 ∧ sga.length = 4 ∧ lastEq rev sga = true
  · obtain ⟨h1, h2, h3⟩ := hg
    rcases hrev with rfl | rfl | ⟨v, f, d, rfl⟩ <;> simp at h1
    rcases hsga with rfl | rfl | ⟨v2, f2, d2, rfl⟩ <;> simp at h2
    have hv : v.num ≠ 0 := h0 v rfl
    refine ⟨[[Cell.str "SGA percent of Revenue (with OCI)",
        Cell.str (fmtComma2 (round2 ((v2 - tech_saved spend) / v * 100)) ++ "%")],
      [Cell.str "Change In SGA percent of Revenue",
        Cell.str (fmtComma2 (round2 (v2 / v * 100) -
          round2 ((v2 - tech_saved spend) / v * 100)) ++ "%")]], ?_⟩
    simp [sga_margin_oci_rows, h3, num1, pyDiv, hv]
  · exact ⟨[], by simp [sga_margin_oci_rows, hg]⟩

theorem op_profit_oci_rows_run (spend : Frac) (sga op : Row)
    (hop : derivedNumShape "Operating Profit" op)
    (hsv : op.length = 4 → ∃ v, num1 sga = .ok v) :
    ∃ l, op_profit_oci_rows spend sga op = .ok l := by
  rcases hop with rfl | ⟨v, c, d, rfl⟩
  · exact ⟨[], by simp [op_profit_oci_rows]⟩
  · obtain ⟨sv, hv⟩ := hsv (by simp)
    refine ⟨[[Cell.str "Operating Profit",
      Cell.str ("$" ++ fmtComma2 (sv - tech_saved spend))]], ?_⟩
    simp [op_profit_oci_rows, hv]

theorem op_margin_oci_rows_run (lr : String) (spend : Frac) (rev op : Row)
    (hrev : plainShape lr rev) (hop : derivedNumShape "Operating Profit" op)
    (h0 : ∀ v, num1 rev = .ok v → v.num ≠ 0) :
    ∃ l, op_margin_oci_rows spend rev op = .ok l := by
  by_cases hg : rev.length = 4 ∧ op.length = 4 ∧ lastEq rev op = true
  · obtain ⟨h1, h2, h3⟩ := hg
    rcases hrev with rfl | rfl | ⟨v, f, d, rfl⟩ <;> simp at h1
    rcases hop with rfl | ⟨v2, c2c, d2, rfl⟩
    · simp at h2
    have hv : v.num ≠ 0 := h0 v rfl
    refine ⟨[[Cell.str "Operating Profit Margin (with OCI)",
        Cell.str (fmtComma2 (round2 ((v2 - tech_saved spend) / v * 100)) ++ "%")],
      [Cell.str "Change In Operating Margin",
        Cell.str (fmtComma2 (round2 (v2 / v * 100) -
          round2 ((v2 - tech_saved spend) / v * 100)) ++ "%")]], ?_⟩
    simp [op_margin_oci_rows, h3, num1, pyDiv, hv]
  · exact ⟨[], by simp [op_margin_oci_rows, hg]⟩

theorem net_income_oci_rows_run (spend : Frac) (ni : Row)
    (hni : derivedNumShape "Net Income" ni) :
    ∃ l, net_income_oci_rows spend ni = .ok l := by
  rcases hni with rfl | ⟨v, c, d, rfl⟩
  · exact ⟨[], by simp [net_income_oci_rows]⟩
  · refine ⟨[[Cell.str "Net Income (with OCI)",
      Cell.str ("$" ++ fmtComma2 (v + tech_saved spend))]], ?_⟩
    simp [net_income_oci_rows, num1]

theorem eps_oci_rows_run (spend : Frac) (ni shares eps : Row)
    (heps : derivedNumShape "Net Income per share - Diluted" eps)
    (hlink : eps.length = 4 →
      (∃ a, num1 ni = .ok a) ∧ ∃ b, num1 shares = .ok b ∧ b.num ≠ 0) :
    ∃ l, eps_oci_rows spend ni shares eps = .ok l := by
  rcases heps with rfl | ⟨v, c, d, rfl⟩
  · exact ⟨[], by simp [eps_oci_rows]⟩
  · obtain ⟨⟨a, ha⟩, b, hb, hb0⟩ := hlink (by simp)
    refine ⟨[[Cell.str "Net Income per share - Diluted (with OCI)",
        Cell.str ("$" ++ fmtComma2 (round2 ((a + tech_saved spend) / b)))],
      [Cell.str "Net Income per share - Diluted (change)",
        Cell.str ("$" ++ fmtComma2 (Frac.fabs (round2 (a / b) -
          round2 ((a + tech_saved spend) / b))))]], ?_⟩
    simp [eps_oci_rows, ha, hb, pyDiv, hb0]

/-! ## Whole-pipeline equations and success under nonzero divisors -/

/-- The income/expense fetcher's result, with the `abs` folded into the
existential witness. -/
theorem getIncomeExpense_numShape (resp : FetchResp) :
    getIncomeExpense resp = [] ∨ ∃ v f d, getIncomeExpense resp =
      [Cell.str "Other Nonoperating Income (Expense), net", Cell.num v, Cell.str f,
        Cell.str d] := by
  rcases getIncomeExpense_shape resp with h | ⟨v, f, d, h⟩
  · exact Or.inl h
  · exact Or.inr ⟨v.fabs, f, d, h⟩

/-- The primary table, given the results of the six derivation steps. -/
theorem display_table_eq (R : Responses) (gm sgam op opm ni eps : Row)
    (hgm : gross_margin_list (getRevenue R.revenue) (getCostRevenue R.cost) = .ok gm)
    (hsgam : sga_margin_list (getRevenue R.revenue) (getSGA R.sga) = .ok sgam)
    (hop : operating_profit_list (getGrossProfit R.profit) (getSGA R.sga) = .ok op)
    (hopm : operating_profit_margin_list (getRevenue R.revenue) op = .ok opm)
    (hni : net_income_row op (getInterestExpense R.interest) (getIncomeExpense R.income)
      (getIncomeTax R.incomeTax) = .ok ni)
    (heps : income_share_list (getShares R.shares) ni = .ok eps) :
    display_table R = .ok (rowIf4 (getRevenue R.revenue) ++ rowIf4 (getCostRevenue R.cost) ++
      rowIf4 gm ++ rowIf4 (getGrossProfit R.profit) ++ rowIf4 (getSGA R.sga) ++ rowIf4 sgam ++
      rowIf4 op ++ rowIf4 opm ++ rowIf4 (getInterestExpense R.interest) ++
      rowIf4 (getIncomeExpense R.income) ++ rowIf4 (getIncomeTax R.incomeTax) ++
      rowIf4 (getTaxRate R.taxRate) ++ rowIf4 ni ++ rowIf4 (getShares R.shares) ++
      rowIf4 eps) := by
  simp only [display_table, hgm, hsgam, hop, hopm, hni, heps, ok_bind, pure_eq_ok]

/-- The competitor-spend table, given the results of its parts. -/
theorem spend_table_eq (R : Responses) (spend : Frac) (op ni eps : Row)
    (p1 p2 p3 p4 p5 p6 p7 : List Row)
    (hop : operating_profit_list (getGrossProfit R.profit) (getSGA R.sga) = .ok op)
    (hni : net_income_row op (getInterestExpense R.interest) (getIncomeExpense R.income)
      (getIncomeTax R.incomeTax) = .ok ni)
    (heps : income_share_list (getShares R.shares) ni = .ok eps)
    (hp1 : pct_sga_rows spend (getSGA R.sga) = .ok p1)
    (hp2 : oci_sga_rows spend (getSGA R.sga) = .ok p2)
    (hp3 : sga_margin_oci_rows spend (getRevenue R.revenue) (getSGA R.sga) = .ok p3)
    (hp4 : op_profit_oci_rows spend (getSGA R.sga) op = .ok p4)
    (hp5 : op_margin_oci_rows spend (getRevenue R.revenue) op = .ok p5)
    (hp6 : net_income_oci_rows spend ni = .ok p6)
    (hp7 : eps_oci_rows spend ni (getShares R.shares) eps = .ok p7) :
    spend_table R spend = .ok (p1 ++ [ociSpendRow spend, amountSavedRow spend] ++ p2 ++
      p3 ++ p4 ++ p5 ++ p6 ++ p7) := by
  simp only [spend_table, hop, hni, heps, hp1, hp2, hp3, hp4, hp5, hp6, hp7, ok_bind,
    pure_eq_ok]

theorem display_table_run (R : Responses)
    (hrev0 : ∀ v, num1 (getRevenue R.revenue) = .ok v → v.num ≠ 0)
    (hsh0 : ∀ v, num1 (getShares R.shares) = .ok v → v.num ≠ 0) :
    ∃ t, display_table R = .ok t := by
  obtain ⟨gm, hgm, -, -⟩ := gross_margin_list_run _ _ _ _
    (getRevenue_shape R.revenue) (getCostRevenue_shape R.cost) hrev0
  obtain ⟨sgam, hsgam, -, -⟩ := sga_margin_list_run _ _ _ _
    (getRevenue_shape R.revenue) (getSGA_shape R.sga) hrev0
  obtain ⟨op, hop, hopshape, -, -⟩ := operating_profit_list_run _ _ _ _
    (getGrossProfit_shape R.profit) (getSGA_shape R.sga)
  obtain ⟨opm, hopm, -, -⟩ := operating_profit_margin_list_run _ _ _
    (getRevenue_shape R.revenue) hopshape hrev0
  obtain ⟨ni, hni, hnishape, -, -⟩ := net_income_row_run _ _ _ _ _ _ hopshape
    (getInterestExpense_shape R.interest) (getIncomeExpense_numShape R.income)
    (getIncomeTax_shape R.incomeTax)
  obtain ⟨eps, heps, -, -⟩ := income_share_list_run _ _ _
    (getShares_shape R.shares) hnishape hsh0
  exact ⟨_, display_table_eq R gm sgam op opm ni eps hgm hsgam hop hopm hni heps⟩

theorem spend_table_run (R : Responses) (spend : Frac)
    (hrev0 : ∀ v, num1 (getRevenue R.revenue) = .ok v → v.num ≠ 0)
    (hsga0 : ∀ v, num1 (getSGA R.sga) = .ok v → v.num ≠ 0)
    (hsh0 : ∀ v, num1 (getShares R.shares) = .ok v → v.num ≠ 0) :
    ∃ t, spend_table R spend = .ok t := by
  obtain ⟨op, hop, hopshape, hopiff, -⟩ := operating_profit_list_run _ _ _ _
    (getGrossProfit_shape R.profit) (getSGA_shape R.sga)
  obtain ⟨ni, hni, hnishape, -, -⟩ := net_income_row_run _ _ _ _ _ _ hopshape
    (getInterestExpense_shape R.interest) (getIncomeExpense_numShape R.income)
    (getIncomeTax_shape R.incomeTax)
  obtain ⟨eps, heps, hepsshape, hepsiff⟩ := income_share_list_run _ _ _
    (getShares_shape R.shares) hnishape hsh0
  obtain ⟨p1, hp1⟩ := pct_sga_rows_run _ spend _ (getSGA_shape R.sga) hsga0
  obtain ⟨p2, hp2⟩ := oci_sga_rows_run _ spend _ (getSGA_shape R.sga)
  obtain ⟨p3, hp3⟩ := sga_margin_oci_rows_run _ _ spend _ _
    (getRevenue_shape R.revenue) (getSGA_shape R.sga) hrev0
  have hsv : op.length = 4 → ∃ v, num1 (getSGA R.sga) = .ok v := by
    intro h4
    obtain ⟨-, h2, -⟩ := hopiff.mp h4
    rcases getSGA_shape R.sga with h | h | ⟨v, f, d, h⟩
    · rw [h] at h2; simp at h2
    · rw [h] at h2; simp at h2
    · exact ⟨v, by simp [h, num1]⟩
  obtain ⟨p4, hp4⟩ := op_profit_oci_rows_run spend _ _ hopshape hsv
  obtain ⟨p5, hp5⟩ := op_margin_oci_rows_run _ spend _ _
    (getRevenue_shape R.revenue) hopshape hrev0
  obtain ⟨p6, hp6⟩ := net_income_oci_rows_run spend _ hnishape
  have hlink : eps.length = 4 →
      (∃ a, num1 ni = .ok a) ∧ ∃ b, num1 (getShares R.shares) = .ok b ∧ b.num ≠ 0 := by
    intro h4
    obtain ⟨hsh4, hni4, -⟩ := hepsiff.mp h4
    constructor
    · rcases hnishape with h | ⟨v, c, d, h⟩
      · rw [h] at hni4; simp at hni4
      · exact ⟨v, by simp [h, num1]⟩
    · rcases getShares_shape R.shares with h | h | ⟨v, f, d, h⟩
      · rw [h] at hsh4; simp at hsh4
      · rw [h] at hsh4; simp at hsh4
      · exact ⟨v, by simp [h, num1], hsh0 v (by simp [h, num1])⟩
  obtain ⟨p7, hp7⟩ := eps_oci_rows_run spend _ _ _ hepsshape hlink
  exact ⟨_, spend_table_eq R spend op ni eps p1 p2 p3 p4 p5 p6 p7 hop hni heps hp1 hp2 hp3
    hp4 hp5 hp6 hp7⟩

theorem runMain_run (R : Responses) (spend : Frac)
    (hrev0 : ∀ v, num1 (getRevenue R.revenue) = .ok v → v.num ≠ 0)
    (hsga0 : ∀ v, num1 (getSGA R.sga) = .ok v → v.num ≠ 0)
    (hsh0 : ∀ v, num1 (getShares R.shares) = .ok v → v.num ≠ 0) :
    ∃ t, runMain R spend = .ok t := by
  obtain ⟨dt, hdt⟩ := display_table_run R hrev0 hsh0
  obtain ⟨st, hst⟩ := spend_table_run R spend hrev0 hsga0 hsh0
  exact ⟨(dt, st), by simp [runMain, hdt, hst]⟩

/-! ## Label and structure inversion lemmas for table membership -/

theorem rowLabelIs_of_plainShape (l l' : String) (r : Row) (h : plainShape l r)
    (hne : l ≠ l') : rowLabelIs l' r = false := by
  rcases h with rfl | rfl | ⟨v, f, d, rfl⟩ <;>
    simp [rowLabelIs, hne]

theorem rowLabelIs_of_numShape (l l' : String) (r : Row)
    (h : derivedNumShape l r) (hne : l ≠ l') : rowLabelIs l' r = false := by
  rcases h with rfl | ⟨v, c, d, rfl⟩ <;> simp [rowLabelIs, hne]

theorem hasLabel_append (l : String) (xs ys : List Row) :
    hasLabel l (xs ++ ys) = (hasLabel l xs || hasLabel l ys) := List.any_append

theorem hasLabel_rowIf4 (l : String) (r : Row) :
    hasLabel l (rowIf4 r) = (decide (r.length = 4) && rowLabelIs l r) := by
  unfold rowIf4 hasLabel
  split <;> simp [*]

theorem gross_margin_list_ok_shape (a b r : Row) (h : gross_margin_list a b = .ok r) :
    r = [] ∨ ∃ s c d, r = [Cell.str "Gross Margin", Cell.str s, c, d] := by
  unfold gross_margin_list at h
  split at h
  · obtain ⟨cv, -, h⟩ := bind_ok_inv h
    obtain ⟨rv, -, h⟩ := bind_ok_inv h
    obtain ⟨q, -, h⟩ := bind_ok_inv h
    obtain ⟨c2c, -, h⟩ := bind_ok_inv h
    obtain ⟨clc, -, h⟩ := bind_ok_inv h
    simp only [pure_eq_ok, Except.ok.injEq] at h
    exact Or.inr ⟨_, c2c, clc, h.symm⟩
  · simp only [pure_eq_ok, Except.ok.injEq] at h
    exact Or.inl h.symm

theorem sga_margin_list_ok_shape (a b r : Row) (h : sga_margin_list a b = .ok r) :
    r = [] ∨ ∃ s c d, r = [Cell.str "SGA Percent of Revenue", Cell.str s, c, d] := by
  unfold sga_margin_list at h
  split at h
  · obtain ⟨cv, -, h⟩ := bind_ok_inv h
    obtain ⟨rv, -, h⟩ := bind_ok_inv h
    obtain ⟨q, -, h⟩ := bind_ok_inv h
    obtain ⟨c2c, -, h⟩ := bind_ok_inv h
    obtain ⟨clc, -, h⟩ := bind_ok_inv h
    simp only [pure_eq_ok, Except.ok.injEq] at h
    exact Or.inr ⟨_, c2c, clc, h.symm⟩
  · simp only [pure_eq_ok, Except.ok.injEq] at h
    exact Or.inl h.symm

theorem operating_profit_margin_list_ok_shape (a b r : Row)
    (h : operating_profit_margin_list a b = .ok r) :
    r = [] ∨ ∃ s c d, r = [Cell.str "Operating Margin", Cell.str s, c, d] := by
  unfold operating_profit_margin_list at h
  split at h
  · obtain ⟨cv, -, h⟩ := bind_ok_inv h
    obtain ⟨rv, -, h⟩ := bind_ok_inv h
    obtain ⟨q, -, h⟩ := bind_ok_inv h
    obtain ⟨c2c, -, h⟩ := bind_ok_inv h
    obtain ⟨clc, -, h⟩ := bind_ok_inv h
    simp only [pure_eq_ok, Except.ok.injEq] at h
    exact Or.inr ⟨_, c2c, clc, h.symm⟩
  · simp only [pure_eq_ok, Except.ok.injEq] at h
    exact Or.inl h.symm

theorem income_share_list_ok_shape (a b r : Row) (h : income_share_list a b = .ok r) :
    derivedNumShape "Net Income per share - Diluted" r := by
  unfold income_share_list at h
  split at h
  · obtain ⟨nv, -, h⟩ := bind_ok_inv h
    obtain ⟨sv, -, h⟩ := bind_ok_inv h
    obtain ⟨q, -, h⟩ := bind_ok_inv h
    obtain ⟨c2c, -, h⟩ := bind_ok_inv h
    obtain ⟨clc, -, h⟩ := bind_ok_inv h
    simp only [pure_eq_ok, Except.ok.injEq] at h
    exact Or.inr ⟨_, c2c, clc, h.symm⟩
  · simp only [pure_eq_ok, Except.ok.injEq] at h
    exact Or.inl h.symm

/-- Any successful competitor-spend table splits around the two unconditional
rows of lines 167-171. -/
theorem spend_table_ok_split (R : Responses) (spend : Frac) (st : List Row)
    (h : spend_table R spend = .ok st) :
    ∃ p1 rest, st = p1 ++ [ociSpendRow spend, amountSavedRow spend] ++ rest := by
  unfold spend_table at h
  obtain ⟨op, -, h⟩ := bind_ok_inv h
  obtain ⟨ni, -, h⟩ := bind_ok_inv h
  obtain ⟨eps, -, h⟩ := bind_ok_inv h
  obtain ⟨p1, -, h⟩ := bind_ok_inv h
  obtain ⟨p2, -, h⟩ := bind_ok_inv h
  obtain ⟨p3, -, h⟩ := bind_ok_inv h
  obtain ⟨p4, -, h⟩ := bind_ok_inv h
  obtain ⟨p5, -, h⟩ := bind_ok_inv h
  obtain ⟨p6, -, h⟩ := bind_ok_inv h
  obtain ⟨p7, -, h⟩ := bind_ok_inv h
  simp only [pure_eq_ok, Except.ok.injEq] at h
  exact ⟨p1, p2 ++ p3 ++ p4 ++ p5 ++ p6 ++ p7, by rw [← h]; simp⟩

/-! ## Small helper lemmas -/

/-- A one-point discharge of the nonzero-divisor hypotheses. -/
theorem num1_nonzero_of (r : Row) (w : Frac) (hw : num1 r = .ok w) (h0 : w.num ≠ 0) :
    ∀ v, num1 r = .ok v → v.num ≠ 0 := by
  intro v hv
  rw [hw] at hv
  injection hv with h
  rw [← h]
  exact h0

theorem row4_exists (r : Row) (h : r.length = 4) : ∃ a0 a1 a2 a3, r = [a0, a1, a2, a3] := by
  cases r with
  | nil => simp at h
  | cons a0 t0 =>
      cases t0 with
      | nil => simp at h
      | cons a1 t1 =>
          cases t1 with
          | nil => simp at h
          | cons a2 t2 =>
              cases t2 with
              | nil => simp at h
              | cons a3 t3 =>
                  cases t3 with
                  | nil => exact ⟨a0, a1, a2, a3, rfl⟩
                  | cons a4 t4 => simp at h

theorem lastCell_ok (r : Row) (c : Cell) (h : lastCell r = .ok c) : r.getLast? = some c := by
  unfold lastCell at h
  cases hr : r.getLast? with
  | none => rw [hr] at h; simp at h
  | some x => rw [hr] at h; injection h with h; rw [h]

/-- Production of the EPS row implies its guard held. -/
theorem income_share_list_len4 (a b r : Row) (h : income_share_list a b = .ok r)
    (h4 : r.length = 4) : a.length = 4 ∧ b.length = 4 ∧ lastEq a b = true := by
  by_cases hg : a.length = 4 ∧ b.length = 4 ∧ lastEq a b = true
  · exact hg
  · unfold income_share_list at h
    rw [if_neg hg] at h
    simp only [pure_eq_ok, Except.ok.injEq] at h
    rw [← h] at h4
    simp at h4

/-! ## Claims -/

/-- C10: whenever the Operating Margin row is produced, the Revenue, Gross
Profit and SG&A rows' filed dates are all identical: the Operating Profit row
carries Gross Profit's filed date and required GrossProfit.filed = SGA.filed,
and Operating Margin additionally required Revenue.filed =
OperatingProfit.filed, so alignment is transitive across all three. -/
theorem C10_operating_margin_alignment (profit sga rev op opm : Row)
    (hop : operating_profit_list profit sga = .ok op)
    (hopm : operating_profit_margin_list rev op = .ok opm)
    (h4 : opm.length = 4) :
    lastEq profit sga = true ∧ op.getLast? = profit.getLast? ∧ lastEq rev profit = true := by
  have hgm : rev.length = 4 ∧ op.length = 4 ∧ lastEq rev op = true := by
    by_cases hg : rev.length = 4 ∧ op.length = 4 ∧ lastEq rev op = true
    · exact hg
    · unfold operating_profit_margin_list at hopm
      rw [if_neg hg] at hopm
      simp only [pure_eq_ok, Except.ok.injEq] at hopm
      rw [← hopm] at h4
      simp at h4
  have hgo : profit.length = 4 ∧ sga.length = 4 ∧ lastEq profit sga = true := by
    by_cases hg : profit.length = 4 ∧ sga.length = 4 ∧ lastEq profit sga = true
    · exact hg
    · unfold operating_profit_list at hop
      rw [if_neg hg] at hop
      simp only [pure_eq_ok, Except.ok.injEq] at hop
      rw [← hop] at hgm
      simp at hgm
  have hshape : ∃ clc, op.getLast? = some clc ∧ profit.getLast? = some clc := by
    unfold operating_profit_list at hop
    rw [if_pos hgo] at hop
    obtain ⟨pv, -, hop⟩ := bind_ok_inv hop
    obtain ⟨sv, -, hop⟩ := bind_ok_inv hop
    obtain ⟨c2c, -, hop⟩ := bind_ok_inv hop
    obtain ⟨clc, hlast, hop⟩ := bind_ok_inv hop
    simp only [pure_eq_ok, Except.ok.injEq] at hop
    refine ⟨clc, ?_, lastCell_ok _ _ hlast⟩
    rw [← hop]
    rfl
  obtain ⟨clc, hopl, hprofl⟩ := hshape
  refine ⟨hgo.2.2, by rw [hopl, hprofl], ?_⟩
  have halign := hgm.2.2
  unfold lastEq at halign ⊢
  rw [hopl] at halign
  rw [hprofl]
  exact halign

/-- C10 witness: a concrete aligned triple of Revenue, Gross Profit and SG&A
rows, with the produced Operating Profit and Operating Margin rows. -/
theorem C10_operating_margin_alignment_witness :
    lastEq profitW sgaW = true ∧
    ([Cell.str "Operating Profit", Cell.num (round2 ((600 : Frac) - 200)), Cell.str "10-K",
      Cell.str "2024-01-01"] : Row).getLast? = profitW.getLast? ∧
    lastEq revW profitW = true := by
  refine C10_operating_margin_alignment profitW sgaW revW _
    ([Cell.str "Operating Margin", Cell.str "40.0%", Cell.str "10-K", Cell.str "2024-01-01"])
    (by rfl) (by rfl) (by decide)

/-- C8: for every ticker not present in the identifier map, resolution yields
`None`, the user is told the ticker was not found, and the outcome does not
depend on the fetch oracle — no concept fetch is attempted. -/
theorem C8_unknown_ticker (table : List TickerRec) (t : String)
    (h : ∀ r ∈ table, pyUpper r.ticker ≠ pyUpper t) :
    getCIK table t = none ∧
    (∀ F spend, mainDispatch table t F spend =
      .notFound "Ticker not found. Please verify the symbol.") ∧
    (∀ F F' spend spend', mainDispatch table t F spend = mainDispatch table t F' spend') := by
  have hfil : (table.map (fun r =>
      { cik_str := zfill 10 r.cik_str, ticker := r.ticker : TickerRec })).filter
      (fun r => pyUpper r.ticker == pyUpper t) = [] := by
    rw [List.filter_eq_nil_iff]
    intro a ha
    obtain ⟨r, hr, rfl⟩ := List.mem_map.mp ha
    simpa using h r hr
  have hc : getCIK table t = none := by
    unfold getCIK
    rw [hfil]
    rfl
  exact ⟨hc, fun F spend => by simp [mainDispatch, hc],
    fun F F' s s' => by simp [mainDispatch, hc]⟩

/-- C8 witness: the ticker ZZZZ against a one-entry map. -/
theorem C8_unknown_ticker_witness :
    getCIK [⟨"320193", "AAPL"⟩] "ZZZZ" = none ∧
    mainDispatch [⟨"320193", "AAPL"⟩] "ZZZZ" (fun _ => .netError) 0 =
      .notFound "Ticker not found. Please verify the symbol." := by
  obtain ⟨h1, h2, -⟩ := C8_unknown_ticker [⟨"320193", "AAPL"⟩] "ZZZZ" (by decide)
  exact ⟨h1, h2 _ 0⟩

/-- C9: every successfully rendered competitor-comparison table contains the
"OCI Spend (Including Support Rewards)" and "Amount Saved" rows — computed
solely from the user-supplied spend — and is therefore never empty; with all
nine concept fetches absent the table is exactly those two rows. -/
theorem C9_spend_rows_always (R : Responses) (spend : Frac) :
    (∀ t, runMain R spend = .ok t →
      ociSpendRow spend ∈ t.2 ∧ amountSavedRow spend ∈ t.2 ∧ t.2 ≠ []) ∧
    runMain allAbsent spend = .ok ([], [ociSpendRow spend, amountSavedRow spend]) := by
  constructor
  · intro t ht
    unfold runMain at ht
    obtain ⟨dt, -, ht⟩ := bind_ok_inv ht
    obtain ⟨st, hst, ht⟩ := bind_ok_inv ht
    simp only [pure_eq_ok, Except.ok.injEq] at ht
    obtain ⟨p1, rest, hsplit⟩ := spend_table_ok_split R spend st hst
    rw [← ht]
    refine ⟨by simp [hsplit], by simp [hsplit], by simp [hsplit]⟩
  · rfl

/-- C9 witness: at spend 1,000,000 with every fetch failing, the table is the
two unconditional rows and contains the OCI-spend row. -/
theorem C9_spend_rows_always_witness :
    ociSpendRow 1000000 ∈
      (([], [ociSpendRow 1000000, amountSavedRow 1000000]) : List Row × List Row).2 ∧
    runMain allAbsent 1000000 = .ok ([], [ociSpendRow 1000000, amountSavedRow 1000000]) := by
  obtain ⟨h1, h2⟩ := C9_spend_rows_always allAbsent 1000000
  exact ⟨(h1 _ h2).1, h2⟩

/-- C6 counterexample: at competitor spend 0.01 the computed OCI spend is 0.01
(the source rounds each term to cents before subtracting), not the claim's
0.01×0.53 − (0.01×0.53×0.25) = 0.003975. -/
theorem C6_oci_spend_counterexample :
    Frac.eqv (oci_spend ⟨1, 100⟩) ⟨1, 100⟩ ∧
    ¬ Frac.eqv (oci_spend ⟨1, 100⟩)
      (⟨1, 100⟩ * ⟨53, 100⟩ - ⟨1, 100⟩ * ⟨53, 100⟩ * ⟨25, 100⟩ : Frac) := by
  exact ⟨by decide, by decide⟩

/-- C6 (amended): OCI spend is round(spend×0.53, 2) − round(spend×0.53×0.25,
2) and amount saved is |OCI spend − spend|; at spend 1,000,000 these equal
397,500.00 and 602,500.00 and are rendered as such. -/
theorem C6_oci_spend_amended :
    Frac.eqv (oci_spend 1000000) 397500 ∧
    Frac.eqv (tech_saved 1000000) 602500 ∧
    ociSpendRow 1000000 =
      [Cell.str "OCI Spend (Including Support Rewards)", Cell.str "$397,500.00"] ∧
    amountSavedRow 1000000 =
      [Cell.str "Amount Saved (Between OCI & Origional Cloud Spend)",
        Cell.str "$602,500.00"] ∧
    (∀ s : Frac, oci_spend s = round2 (s * ⟨53, 100⟩) - round2 (s * ⟨53, 100⟩ * ⟨25, 100⟩)) ∧
    (∀ s : Frac, tech_saved s = Frac.fabs (oci_spend s - s)) := by
  exact ⟨by decide, by decide, by decide, by decide, fun s => rfl, fun s => rfl⟩

/-- C7 counterexample: a response whose observations carry no 10-K tag makes
the plain fetchers return the label-only length-1 row, not the empty row. -/
theorem C7_absent_counterexample :
    getRevenue respNoTenK = [Cell.str "Revenue"] ∧
    getRevenue respNoTenK ≠ [] ∧ (getRevenue respNoTenK).length = 1 := by
  refine ⟨by rfl, by decide, by rfl⟩

/-- C7 (amended): network failure, a malformed response, a missing unit key,
and a present unit key with an empty observation list (whose column-less
frame makes the filter's `df["form"]` raise `KeyError` into the `except`)
all yield the empty row; an empty result after filtering a nonempty
observation list to form "10-K" yields the label-only length-1 row for a
plain fetcher such as `getRevenue` (and the empty row for a transforming
fetcher such as `getTaxRate`, whose `row[1]` update raises `IndexError` into
the `except`); every failure result has length ≠ 4, so absence is the only
signal the callers' `len(row) == 4` test observes, and the fetcher never
raises. -/
theorem C7_fetch_failure_amended :
    (getRevenue .netError = [] ∧ getRevenue .malformed = []) ∧
    (∀ m, lookupUnit "USD" m = none → getRevenue (.units m) = []) ∧
    (∀ m, lookupUnit "USD" m = some [] → getRevenue (.units m) = []) ∧
    (∀ m o rest, lookupUnit "USD" m = some (o :: rest) →
      ((o :: rest).filter (fun x => x.form == "10-K")).getLast? = none →
      getRevenue (.units m) = [Cell.str "Revenue"]) ∧
    (∀ resp, (getRevenue resp).length = 4 ∨ (getRevenue resp).length ≤ 1) ∧
    (getTaxRate .netError = [] ∧ getTaxRate .malformed = []) ∧
    (∀ m, lookupUnit "pure" m = none → getTaxRate (.units m) = []) ∧
    (∀ m obs, lookupUnit "pure" m = some obs →
      (obs.filter (fun o => o.form == "10-K")).getLast? = none →
      getTaxRate (.units m) = []) ∧
    (∀ resp, (getTaxRate resp).length = 4 ∨ (getTaxRate resp).length = 0) := by
  refine ⟨⟨rfl, rfl⟩, ?_, ?_, ?_, ?_, ⟨rfl, rfl⟩, ?_, ?_, ?_⟩
  · intro m hm
    simp [getRevenue, fetchBody, runFetch, hm]
  · intro m hm
    simp [getRevenue, fetchBody, runFetch, hm]
  · intro m o rest hm hf
    simp [getRevenue, fetchBody, runFetch, hm, hf]
  · intro resp
    rcases getRevenue_shape resp with h | h | ⟨v, f, d, h⟩ <;> rw [h] <;> simp
  · intro m hm
    simp [getTaxRate, fetchBody, runFetch, taxTransform, hm]
  · intro m obs hm hf
    cases obs with
    | nil => simp [getTaxRate, fetchBody, runFetch, hm]
    | cons o0 rest => simp [getTaxRate, fetchBody, runFetch, taxTransform, hm, hf]
  · intro resp
    rcases getTaxRate_shape resp with h | ⟨s, f, d, h⟩ <;> rw [h] <;> simp

/-- C7 witness: the failure families at concrete responses — a missing unit
key, a present unit key with an empty observation list, a nonempty list with
no 10-K observation, and the transforming fetcher's empty post-filter. -/
theorem C7_fetch_failure_amended_witness :
    getRevenue (.units [("EUR", [])]) = [] ∧
    getRevenue (.units [("USD", [])]) = [] ∧
    getRevenue respNoTenK = [Cell.str "Revenue"] ∧
    getTaxRate (.units [("pure", [⟨⟨21, 100⟩, "10-Q", "2024-01-01"⟩])]) = [] := by
  obtain ⟨-, h1, h2, h3, -, -, -, h4, -⟩ := C7_fetch_failure_amended
  exact ⟨h1 [("EUR", [])] rfl, h2 [("USD", [])] rfl,
    h3 [("USD", [⟨5, "10-Q", "2024-01-01"⟩])] ⟨5, "10-Q", "2024-01-01"⟩ [] rfl rfl,
    h4 [("pure", [⟨⟨21, 100⟩, "10-Q", "2024-01-01"⟩])] [⟨⟨21, 100⟩, "10-Q", "2024-01-01"⟩]
      rfl rfl⟩

/-- C2 counterexample: Revenue present with value 0 and an aligned Cost row —
both rows present with identical filed dates — yet no Gross Margin row is
produced: the computation raises `ZeroDivisionError` and the whole table is
lost, falsifying "produced iff present and aligned". -/
theorem C2_gross_margin_counterexample :
    (getRevenue RzeroRev.revenue).length = 4 ∧
    (getCostRevenue RzeroRev.cost).length = 4 ∧
    lastEq (getRevenue RzeroRev.revenue) (getCostRevenue RzeroRev.cost) = true ∧
    gross_margin_list (getRevenue RzeroRev.revenue) (getCostRevenue RzeroRev.cost) =
      .error .zeroDivisionError ∧
    display_table RzeroRev = .error .zeroDivisionError := by
  refine ⟨by rfl, by rfl, by rfl, by rfl, by rfl⟩

/-- C2 (amended): provided the fetched Revenue value is nonzero, the Gross
Margin row is produced iff Revenue and Cost of Revenue are both present
(length 4) and share an identical filed date, in which case its value is
`str(round(cost/revenue*100, 2)) + "%"` and the row carries Revenue's form and
filed date; otherwise it is omitted.  (At Revenue value 0 with an aligned Cost
row the step instead raises — see the counterexample.) -/
theorem C2_gross_margin_amended (R : Responses)
    (hrev0 : ∀ v, num1 (getRevenue R.revenue) = .ok v → v.num ≠ 0) :
    ∃ gm, gross_margin_list (getRevenue R.revenue) (getCostRevenue R.cost) = .ok gm ∧
      (gm.length = 4 ↔ ((getRevenue R.revenue).length = 4 ∧
        (getCostRevenue R.cost).length = 4 ∧
        lastEq (getRevenue R.revenue) (getCostRevenue R.cost) = true)) ∧
      (gm.length ≠ 4 → gm = []) ∧
      (∀ rv f d cv cf, getRevenue R.revenue =
          [Cell.str "Revenue", Cell.num rv, Cell.str f, Cell.str d] →
        getCostRevenue R.cost =
          [Cell.str "Cost Of Revenue", Cell.num cv, Cell.str cf, Cell.str d] →
        gm = [Cell.str "Gross Margin",
          Cell.str (pyFloatStr (round2 (cv / rv * 100)) ++ "%"), Cell.str f, Cell.str d]) := by
  obtain ⟨gm, hgm, hshape, hiff⟩ := gross_margin_list_run _ _ _ _
    (getRevenue_shape R.revenue) (getCostRevenue_shape R.cost) hrev0
  refine ⟨gm, hgm, hiff, ?_, ?_⟩
  · intro hne
    rcases hshape with rfl | ⟨s, c, d, rfl⟩
    · rfl
    · simp at hne
  · intro rv f d cv cf hR hC
    have hv : rv.num ≠ 0 := hrev0 rv (by simp [hR, num1])
    have hcomp : gross_margin_list (getRevenue R.revenue) (getCostRevenue R.cost) =
        .ok [Cell.str "Gross Margin",
          Cell.str (pyFloatStr (round2 (cv / rv * 100)) ++ "%"), Cell.str f, Cell.str d] := by
      rw [hR, hC]
      simp [gross_margin_list, num1, cell2, lastCell, pyDiv, hv, List.getLast?, lastEq,
        Cell.pyEq]
    rw [hgm] at hcomp
    exact Except.ok.inj hcomp

/-- C2 witness: Revenue 1000 and Cost 400 with equal filed dates produce the
Gross Margin row with value "40.0%". -/
theorem C2_gross_margin_amended_witness :
    ∃ gm, gross_margin_list (getRevenue sampleFull.revenue)
        (getCostRevenue sampleFull.cost) = .ok gm ∧
      gm = [Cell.str "Gross Margin", Cell.str "40.0%", Cell.str "10-K",
        Cell.str "2024-01-01"] := by
  obtain ⟨gm, hgm, -, -, hval⟩ := C2_gross_margin_amended sampleFull
    (num1_nonzero_of _ 1000 (by rfl) (by decide))
  refine ⟨gm, hgm, ?_⟩
  have hv := hval 1000 "10-K" "2024-01-01" 400 "10-K" (by rfl) (by rfl)
  rw [hv]
  decide

/-- C3 counterexample: the derivation pipeline can raise — with Revenue
fetched as 0 and an aligned Cost row, at the non-negative competitor spend 0,
the gross-margin division raises `ZeroDivisionError` instead of omitting the
row. -/
theorem C3_no_crash_counterexample :
    runMain RzeroRev 0 = .error .zeroDivisionError ∧ ((0 : Frac) ≤ 0) := by
  exact ⟨by rfl, by decide⟩

/-- C3 (amended): the pipeline raises no exception provided every division it
can reach has a nonzero divisor — the fetched Revenue, SG&A and Shares
values, each only when its row is present; each unresolvable derived metric is
then merely omitted.  With a zero divisor it raises `ZeroDivisionError` (see
the counterexample). -/
theorem C3_no_crash_amended (R : Responses) (spend : Frac)
    (hrev0 : ∀ v, num1 (getRevenue R.revenue) = .ok v → v.num ≠ 0)
    (hsga0 : ∀ v, num1 (getSGA R.sga) = .ok v → v.num ≠ 0)
    (hsh0 : ∀ v, num1 (getShares R.shares) = .ok v → v.num ≠ 0) :
    ∃ t, runMain R spend = .ok t :=
  runMain_run R spend hrev0 hsga0 hsh0

/-- C3 witness: the fully aligned sample submission with nonzero Revenue,
SG&A and Shares completes with both tables. -/
theorem C3_no_crash_amended_witness : ∃ t, runMain sampleFull 1000000 = .ok t :=
  C3_no_crash_amended sampleFull 1000000
    (num1_nonzero_of _ 1000 (by rfl) (by decide))
    (num1_nonzero_of _ 200 (by rfl) (by decide))
    (num1_nonzero_of _ 100 (by rfl) (by decide))

/-- C5: under the four-way alignment precondition the Net Income value equals
`int(round(OperatingProfit − InterestExpense − OtherIncomeExpense −
IncomeTaxesPaidNet, 2))` — rounded to 2 decimals then truncated toward zero to
an integer — and the Other Income/Expense fetcher delivers the absolute value
of the last 10-K observation's magnitude. -/
theorem C5_net_income_value :
    (∀ op ir inc tax (a b c d : Frac), num1 op = .ok a → num1 ir = .ok b →
      num1 inc = .ok c → num1 tax = .ok d → fourAligned op ir inc tax →
      ∃ formC dateC, net_income_row op ir inc tax = .ok [Cell.str "Net Income",
        Cell.num (intFrac (pyInt (round2 (a - b - c - d)))), formC, dateC]) ∧
    (∀ m obs o, lookupUnit "USD" m = some obs →
      (obs.filter (fun x => x.form == "10-K")).getLast? = some o →
      num1 (getIncomeExpense (.units m)) = .ok o.val.fabs) := by
  constructor
  · intro op ir inc tax a b c d ha hb hc hd hg
    obtain ⟨a0, a1, a2, a3, rfl⟩ := row4_exists op hg.1
    refine ⟨a2, a3, ?_⟩
    simp [net_income_row, hg, ha, hb, hc, hd, cell2, lastCell, List.getLast?]
  · intro m obs o hm hf
    cases obs with
    | nil => simp at hf
    | cons o0 rest =>
        simp [getIncomeExpense, fetchBody, runFetch, absTransform, num1, hm, hf]

/-- C5 witness: Operating Profit 300, Interest 20, Other Income/Expense 30,
Taxes 50, all aligned, give Net Income 200. -/
theorem C5_net_income_value_witness :
    (∃ formC dateC, net_income_row opW irW incW taxW = .ok [Cell.str "Net Income",
      Cell.num (intFrac (pyInt (round2 ((300 : Frac) - 20 - 30 - 50)))), formC, dateC]) ∧
    intFrac (pyInt (round2 ((300 : Frac) - 20 - 30 - 50))) = intFrac 200 := by
  refine ⟨C5_net_income_value.1 opW irW incW taxW 300 20 30 50 (by rfl) (by rfl) (by rfl)
    (by rfl) (by decide), by decide⟩

/-- C4: what the comparison sub-pipeline actually does at GrossProfit 500,
SG&A 200 (aligned) and spend 1,000,000 (amount saved 602,500): the displayed
"Operating Profit" row carries the re-derived SGA value (200 − 602,500 =
−602,300), because line 186 of the source formats `oci_sga`; and with Revenue
1000 also aligned the re-derived operating margin uses `oci_op_profit` =
OperatingProfit − saved (300 − 602,500 = −602,200, margin −60,220.00%) — not
OperatingProfit + saved (602,800, margin 60,280.00%) as the claim states. -/
theorem C4_compare_pipeline_eval :
    spend_table Rc4 1000000 = .ok
      [[Cell.str "% of SGA for Original Tech Spend", Cell.str "500,000.00%"],
       ociSpendRow 1000000, amountSavedRow 1000000,
       [Cell.str "SGA when Using OCI", Cell.str "$-602,300.00"],
       [Cell.str "Operating Profit", Cell.str "$-602,300.00"]] ∧
    spend_table Rc4b 1000000 = .ok
      [[Cell.str "% of SGA for Original Tech Spend", Cell.str "500,000.00%"],
       ociSpendRow 1000000, amountSavedRow 1000000,
       [Cell.str "SGA when Using OCI", Cell.str "$-602,300.00"],
       [Cell.str "SGA percent of Revenue (with OCI)", Cell.str "-60,230.00%"],
       [Cell.str "Change In SGA percent of Revenue", Cell.str "60,250.00%"],
       [Cell.str "Operating Profit", Cell.str "$-602,300.00"],
       [Cell.str "Operating Profit Margin (with OCI)", Cell.str "-60,220.00%"],
       [Cell.str "Change In Operating Margin", Cell.str "60,250.00%"]] ∧
    fmtComma2 (intFrac 300 + tech_saved 1000000) = "602,800.00" ∧
    fmtComma2 (round2 ((intFrac 300 + tech_saved 1000000) / 1000 * 100)) = "60,280.00" ∧
    ("$-602,300.00" : String) ≠ "$602,800.00" ∧
    ("-60,220.00%" : String) ≠ "60,280.00%" := by
  refine ⟨by rfl, by rfl, by decide, by decide, by decide, by decide⟩

/-- C1: the Net Income row is produced iff the Operating Profit, Interest
Expense, Other Income/Expense and Income Taxes rows are all present
(length 4) and all four share an identical filed date; breaking the alignment
on any one omits the Net Income row and then also the EPS row ("Net Income
per share - Diluted") — both as the step's own result and in the displayed
table. -/
theorem C1_net_income_iff_aligned (R : Responses) :
    ∃ op ni,
      operating_profit_list (getGrossProfit R.profit) (getSGA R.sga) = .ok op ∧
      net_income_row op (getInterestExpense R.interest) (getIncomeExpense R.income)
        (getIncomeTax R.incomeTax) = .ok ni ∧
      (ni.length = 4 ↔ fourAligned op (getInterestExpense R.interest)
        (getIncomeExpense R.income) (getIncomeTax R.incomeTax)) ∧
      (¬ fourAligned op (getInterestExpense R.interest) (getIncomeExpense R.income)
          (getIncomeTax R.incomeTax) →
        ni = [] ∧ ∀ shares_row, income_share_list shares_row ni = .ok []) ∧
      (∀ dt, display_table R = .ok dt →
        (hasLabel "Net Income" dt = true ↔ ni.length = 4) ∧
        (hasLabel "Net Income per share - Diluted" dt = true → ni.length = 4)) := by
  obtain ⟨op, hop, hopshape, -, -⟩ := operating_profit_list_run _ _ _ _
    (getGrossProfit_shape R.profit) (getSGA_shape R.sga)
  obtain ⟨ni, hni, hnishape, hniiff, -⟩ := net_income_row_run _ _ _ _ _ _ hopshape
    (getInterestExpense_shape R.interest) (getIncomeExpense_numShape R.income)
    (getIncomeTax_shape R.incomeTax)
  refine ⟨op, ni, hop, hni, hniiff, ?_, ?_⟩
  · intro hg
    have hlen : ni.length ≠ 4 := fun h4 => hg (hniiff.mp h4)
    have hnil : ni = [] := by
      rcases hnishape with rfl | ⟨v, c, d, rfl⟩
      · rfl
      · simp at hlen
    exact ⟨hnil, fun sh => by rw [hnil]; exact income_share_list_of_absent sh⟩
  · intro dt hdt
    unfold display_table at hdt
    obtain ⟨gm, hgm, hdt⟩ := bind_ok_inv hdt
    obtain ⟨sgam, hsgam, hdt⟩ := bind_ok_inv hdt
    obtain ⟨op2, hop2, hdt⟩ := bind_ok_inv hdt
    have hopeq : op = op2 := by rw [hop] at hop2; exact Except.ok.inj hop2
    subst hopeq
    obtain ⟨opm, hopm, hdt⟩ := bind_ok_inv hdt
    obtain ⟨ni2, hni2, hdt⟩ := bind_ok_inv hdt
    have hnieq : ni = ni2 := by rw [hni] at hni2; exact Except.ok.inj hni2
    subst hnieq
    obtain ⟨eps, heps, hdt⟩ := bind_ok_inv hdt
    simp only [pure_eq_ok, Except.ok.injEq] at hdt
    subst hdt
    have lgm : ∀ l', l' ≠ "Gross Margin" → rowLabelIs l' gm = false := by
      intro l' hne
      rcases gross_margin_list_ok_shape _ _ _ hgm with rfl | ⟨s, c, d, rfl⟩ <;>
        simp [rowLabelIs, Ne.symm hne]
    have lsgam : ∀ l', l' ≠ "SGA Percent of Revenue" → rowLabelIs l' sgam = false := by
      intro l' hne
      rcases sga_margin_list_ok_shape _ _ _ hsgam with rfl | ⟨s, c, d, rfl⟩ <;>
        simp [rowLabelIs, Ne.symm hne]
    have lopm : ∀ l', l' ≠ "Operating Margin" → rowLabelIs l' opm = false := by
      intro l' hne
      rcases operating_profit_margin_list_ok_shape _ _ _ hopm with rfl | ⟨s, c, d, rfl⟩ <;>
        simp [rowLabelIs, Ne.symm hne]
    have linc : ∀ l', l' ≠ "Other Nonoperating Income (Expense), net" →
        rowLabelIs l' (getIncomeExpense R.income) = false := by
      intro l' hne
      rcases getIncomeExpense_numShape R.income with h | ⟨v, f, d, h⟩ <;> rw [h] <;>
        simp [rowLabelIs, Ne.symm hne]
    have ltax : ∀ l', l' ≠ "Effective Tax Rate" →
        rowLabelIs l' (getTaxRate R.taxRate) = false := by
      intro l' hne
      rcases getTaxRate_shape R.taxRate with h | ⟨s, f, d, h⟩ <;> rw [h] <;>
        simp [rowLabelIs, Ne.symm hne]
    have leps : ∀ l', l' ≠ "Net Income per share - Diluted" →
        rowLabelIs l' eps = false := by
      intro l' hne
      rcases income_share_list_ok_shape _ _ _ heps with rfl | ⟨v, c, d, rfl⟩ <;>
        simp [rowLabelIs, Ne.symm hne]
    have lop : ∀ l', l' ≠ "Operating Profit" → rowLabelIs l' op = false := by
      intro l' hne
      rcases hopshape with rfl | ⟨v, c, d, rfl⟩ <;> simp [rowLabelIs, Ne.symm hne]
    constructor
    · rw [hasLabel_append, hasLabel_append, hasLabel_append, hasLabel_append,
        hasLabel_append, hasLabel_append, hasLabel_append, hasLabel_append,
        hasLabel_append, hasLabel_append, hasLabel_append, hasLabel_append,
        hasLabel_append, hasLabel_append]
      rw [hasLabel_rowIf4, hasLabel_rowIf4, hasLabel_rowIf4, hasLabel_rowIf4,
        hasLabel_rowIf4, hasLabel_rowIf4, hasLabel_rowIf4, hasLabel_rowIf4,
        hasLabel_rowIf4, hasLabel_rowIf4, hasLabel_rowIf4, hasLabel_rowIf4,
        hasLabel_rowIf4, hasLabel_rowIf4, hasLabel_rowIf4]
      rw [rowLabelIs_of_plainShape _ "Net Income" _ (getRevenue_shape R.revenue) (by decide),
        rowLabelIs_of_plainShape _ "Net Income" _ (getCostRevenue_shape R.cost) (by decide),
        rowLabelIs_of_plainShape _ "Net Income" _ (getGrossProfit_shape R.profit) (by decide),
        rowLabelIs_of_plainShape _ "Net Income" _ (getSGA_shape R.sga) (by decide),
        rowLabelIs_of_plainShape _ "Net Income" _ (getInterestExpense_shape R.interest)
          (by decide),
        rowLabelIs_of_plainShape _ "Net Income" _ (getIncomeTax_shape R.incomeTax)
          (by decide),
        rowLabelIs_of_plainShape _ "Net Income" _ (getShares_shape R.shares) (by decide),
        lgm "Net Income" (by decide), lsgam "Net Income" (by decide),
        lopm "Net Income" (by decide), linc "Net Income" (by decide),
        ltax "Net Income" (by decide), leps "Net Income" (by decide),
        lop "Net Income" (by decide)]
      rcases hnishape with rfl | ⟨v, c, d, rfl⟩
      · simp [rowLabelIs]
      · simp [rowLabelIs]
    · intro hl
      rw [hasLabel_append, hasLabel_append, hasLabel_append, hasLabel_append,
        hasLabel_append, hasLabel_append, hasLabel_append, hasLabel_append,
        hasLabel_append, hasLabel_append, hasLabel_append, hasLabel_append,
        hasLabel_append, hasLabel_append] at hl
      rw [hasLabel_rowIf4, hasLabel_rowIf4, hasLabel_rowIf4, hasLabel_rowIf4,
        hasLabel_rowIf4, hasLabel_rowIf4, hasLabel_rowIf4, hasLabel_rowIf4,
        hasLabel_rowIf4, hasLabel_rowIf4, hasLabel_rowIf4, hasLabel_rowIf4,
        hasLabel_rowIf4, hasLabel_rowIf4, hasLabel_rowIf4] at hl
      rw [rowLabelIs_of_plainShape _ "Net Income per share - Diluted" _
          (getRevenue_shape R.revenue) (by decide),
        rowLabelIs_of_plainShape _ "Net Income per share - Diluted" _
          (getCostRevenue_shape R.cost) (by decide),
        rowLabelIs_of_plainShape _ "Net Income per share - Diluted" _
          (getGrossProfit_shape R.profit) (by decide),
        rowLabelIs_of_plainShape _ "Net Income per share - Diluted" _
          (getSGA_shape R.sga) (by decide),
        rowLabelIs_of_plainShape _ "Net Income per share - Diluted" _
          (getInterestExpense_shape R.interest) (by decide),
        rowLabelIs_of_plainShape _ "Net Income per share - Diluted" _
          (getIncomeTax_shape R.incomeTax) (by decide),
        rowLabelIs_of_plainShape _ "Net Income per share - Diluted" _
          (getShares_shape R.shares) (by decide),
        lgm "Net Income per share - Diluted" (by decide),
        lsgam "Net Income per share - Diluted" (by decide),
        lopm "Net Income per share - Diluted" (by decide),
        linc "Net Income per share - Diluted" (by decide),
        ltax "Net Income per share - Diluted" (by decide),
        lop "Net Income per share - Diluted" (by decide)] at hl
      have lni : rowLabelIs "Net Income per share - Diluted" ni = false := by
        rcases hnishape with rfl | ⟨v, c, d, rfl⟩ <;> simp [rowLabelIs]
      rw [lni] at hl
      simp only [Bool.and_false, Bool.false_or, Bool.or_false] at hl
      have heps4 : eps.length = 4 := by
        rcases income_share_list_ok_shape _ _ _ heps with rfl | ⟨v, c, d, rfl⟩
        · simp at hl
        · rfl
      exact (income_share_list_len4 _ _ _ heps heps4).2.1

/-- C1 witness: at the fully aligned sample submission the Net Income row is
produced (length 4), and appears in the displayed table. -/
theorem C1_net_income_iff_aligned_witness :
    ∃ op ni,
      operating_profit_list (getGrossProfit sampleFull.profit) (getSGA sampleFull.sga) =
        .ok op ∧
      net_income_row op (getInterestExpense sampleFull.interest)
        (getIncomeExpense sampleFull.income) (getIncomeTax sampleFull.incomeTax) = .ok ni ∧
      ni.length = 4 := by
  obtain ⟨op, ni, hop, hni, hiff, -, -⟩ := C1_net_income_iff_aligned sampleFull
  have hopc : operating_profit_list (getGrossProfit sampleFull.profit)
      (getSGA sampleFull.sga) = .ok [Cell.str "Operating Profit",
      Cell.num (round2 ((600 : Frac) - 200)), Cell.str "10-K", Cell.str "2024-01-01"] := by
    rfl
  have hopeq : op = [Cell.str "Operating Profit", Cell.num (round2 ((600 : Frac) - 200)),
      Cell.str "10-K", Cell.str "2024-01-01"] := by
    rw [hop] at hopc
    exact Except.ok.inj hopc
  refine ⟨op, ni, hop, hni, hiff.mpr ?_⟩
  rw [hopeq]
  decide

end EdgarSEC
